import Mathlib

set_option linter.unnecessarySeqFocus false
set_option linter.unnecessarySimpa false

/-!
Verification of the 2D noise generation core of the vgEngine repository.

The definitions below are a shallow embedding of the Python source:

* `src/src/virigir_math_utilities/noise/generators/kernels.py`
* `src/src/virigir_math_utilities/noise/generators/domain_warp.py`
* `src/src/virigir_math_utilities/noise/generators/noise2d.py`
* `src/src/virigir_math_utilities/noise/core/enums.py`

32-bit signed integers (numpy/numba `int32`) are modelled as `Int` values in
the interval `[-2^31, 2^31)` together with an explicit wrapping function
`i32`.  Floating point numbers (`float32`/`float64`) are idealised as exact
rationals (`Rat`) wherever the source only performs field operations, and as
reals (`Real`) where a square root occurs (the cellular sampler and the
domain-warp kernels of `domain_warp.py`).
-/

namespace VgNoise

/-! ## 32-bit signed integer model -/

/-- Two's-complement 32-bit bit pattern of an integer (as used by numpy int32
and by Python's `&` on the result of `int(h)`). -/
def bits32 (a : Int) : Nat := (a % 4294967296).toNat

/-- Interpret a 32-bit pattern as a signed value in `[-2^31, 2^31)`. -/
def ofBits32 (n : Nat) : Int :=
  if n % 4294967296 < 2147483648 then (n % 4294967296 : Int)
  else (n % 4294967296 : Int) - 4294967296

/-- Wrap an integer into the signed 32-bit range (numpy int32 overflow). -/
def i32 (a : Int) : Int := (a + 2147483648) % 4294967296 - 2147483648

/-- Wrapping 32-bit multiplication, `nb.int32(a * b)`. -/
def mul32 (a b : Int) : Int := i32 (i32 a * i32 b)

/-- Wrapping 32-bit addition, `nb.int32(a + b)`. -/
def add32 (a b : Int) : Int := i32 (i32 a + i32 b)

/-- Bitwise XOR of two int32 values (two's complement). -/
def xor32 (a b : Int) : Int := ofBits32 (bits32 a ^^^ bits32 b)

/-- Arithmetic right shift of an int32 value (sign extending), `h >> k`. -/
def shr32 (a : Int) (k : Nat) : Int := Int.ediv a (2 ^ k)

/-- Wrapping left shift of an int32 value, `nb.int32(h << k)`. -/
def shl32 (a : Int) (k : Nat) : Int := i32 (a * 2 ^ k)

theorem i32_lb (a : Int) : -2147483648 ≤ i32 a := by
  have h := Int.emod_nonneg (a + 2147483648) (by norm_num : (4294967296 : Int) ≠ 0)
  unfold i32; omega

theorem i32_ub (a : Int) : i32 a < 2147483648 := by
  have h := Int.emod_lt_of_pos (a + 2147483648) (by norm_num : (0 : Int) < 4294967296)
  unfold i32; omega

theorem ofBits32_lb (n : Nat) : -2147483648 ≤ ofBits32 n := by
  unfold ofBits32
  split <;> omega

theorem ofBits32_ub (n : Nat) : ofBits32 n < 2147483648 := by
  have h : (n : Int) % 4294967296 < 4294967296 :=
    Int.emod_lt_of_pos _ (by norm_num)
  have h0 : 0 ≤ (n : Int) % 4294967296 :=
    Int.emod_nonneg _ (by norm_num)
  unfold ofBits32
  split <;> omega

/-- `i32` is idempotent on already-wrapped values. -/
theorem i32_eq_self {a : Int} (h1 : -2147483648 ≤ a) (h2 : a < 2147483648) :
    i32 a = a := by
  unfold i32
  omega

/-- Wrapping distributes over addition of a plain integer: the per-octave
`seed = nb.int32(seed + 1)` chain telescopes. -/
theorem i32_add_right (a b : Int) : i32 (i32 a + b) = i32 (a + b) := by
  unfold i32
  omega

/-! ## Hash primes and constants (`kernels.py`) -/

def PRIME_X : Int := 501125321
def PRIME_Y : Int := 1136930381

/-- The hash multiplier actually present in the source (`_HASH_MUL`,
also inlined in `_hash2d`). -/
def HASH_MUL : Int := 665099693

/-- `_hash2d`: `h = int32(seed) ^ int32(xp) ^ int32(yp); h = int32(h * 665099693)`. -/
def hash2d (seed xp yp : Int) : Int :=
  mul32 (xor32 (xor32 (i32 seed) (i32 xp)) (i32 yp)) HASH_MUL

/-- `_val_coord`: square the hash, xor with its wrapped left shift by 19,
scale into roughly `[-1, 1]`. -/
def valCoord (seed xp yp : Int) : Rat :=
  let h := hash2d seed xp yp
  let h2 := mul32 h h
  let h3 := xor32 h2 (shl32 h2 19)
  (h3 : Rat) * (1 / 2147483648)

/-- Index computed by `_grad_coord`: `h = int32(h ^ (h >> 15)); int(h) & 254`. -/
def gradIdx (seed xp yp : Int) : Nat :=
  let h := hash2d seed xp yp
  let h2 := xor32 h (shr32 h 15)
  bits32 h2 &&& 254

/-- Index computed by `_grad_coord_out` (and the cellular loop): `int(h) & 510`. -/
def randIdx (h : Int) : Nat := bits32 h &&& 510

/-- Secondary index of `_grad_coord_dual`: `(int(h) >> 7) & 510`. -/
def randIdxDual (h : Int) : Nat := (bits32 h >>> 7) &&& 510

/-! ## Lookup tables (`_GRADIENTS_2D`, `_RAND_VECS_2D`) -/

set_option maxHeartbeats 1000000 in
/-- The 256-entry Gradients2D table from the source (128 unit-vector pairs). -/
def GRADIENTS2D : List Rat := [
  0.130526192220052, 0.99144486137381, 0.38268343236509, 0.923879532511287,
  0.608761429008721, 0.793353340291235, 0.793353340291235, 0.608761429008721,
  0.923879532511287, 0.38268343236509, 0.99144486137381, 0.130526192220051,
  0.99144486137381, -0.130526192220051, 0.923879532511287, -0.38268343236509,
  0.793353340291235, -0.60876142900872, 0.608761429008721, -0.793353340291235,
  0.38268343236509, -0.923879532511287, 0.130526192220052, -0.99144486137381,
  -0.130526192220052, -0.99144486137381, -0.38268343236509, -0.923879532511287,
  -0.608761429008721, -0.793353340291235, -0.793353340291235, -0.608761429008721,
  -0.923879532511287, -0.38268343236509, -0.99144486137381, -0.130526192220052,
  -0.99144486137381, 0.130526192220051, -0.923879532511287, 0.38268343236509,
  -0.793353340291235, 0.608761429008721, -0.608761429008721, 0.793353340291235,
  -0.38268343236509, 0.923879532511287, -0.130526192220052, 0.99144486137381,
  0.130526192220052, 0.99144486137381, 0.38268343236509, 0.923879532511287,
  0.608761429008721, 0.793353340291235, 0.793353340291235, 0.608761429008721,
  0.923879532511287, 0.38268343236509, 0.99144486137381, 0.130526192220051,
  0.99144486137381, -0.130526192220051, 0.923879532511287, -0.38268343236509,
  0.793353340291235, -0.60876142900872, 0.608761429008721, -0.793353340291235,
  0.38268343236509, -0.923879532511287, 0.130526192220052, -0.99144486137381,
  -0.130526192220052, -0.99144486137381, -0.38268343236509, -0.923879532511287,
  -0.608761429008721, -0.793353340291235, -0.793353340291235, -0.608761429008721,
  -0.923879532511287, -0.38268343236509, -0.99144486137381, -0.130526192220052,
  -0.99144486137381, 0.130526192220051, -0.923879532511287, 0.38268343236509,
  -0.793353340291235, 0.608761429008721, -0.608761429008721, 0.793353340291235,
  -0.38268343236509, 0.923879532511287, -0.130526192220052, 0.99144486137381,
  0.130526192220052, 0.99144486137381, 0.38268343236509, 0.923879532511287,
  0.608761429008721, 0.793353340291235, 0.793353340291235, 0.608761429008721,
  0.923879532511287, 0.38268343236509, 0.99144486137381, 0.130526192220051,
  0.99144486137381, -0.130526192220051, 0.923879532511287, -0.38268343236509,
  0.793353340291235, -0.60876142900872, 0.608761429008721, -0.793353340291235,
  0.38268343236509, -0.923879532511287, 0.130526192220052, -0.99144486137381,
  -0.130526192220052, -0.99144486137381, -0.38268343236509, -0.923879532511287,
  -0.608761429008721, -0.793353340291235, -0.793353340291235, -0.608761429008721,
  -0.923879532511287, -0.38268343236509, -0.99144486137381, -0.130526192220052,
  -0.99144486137381, 0.130526192220051, -0.923879532511287, 0.38268343236509,
  -0.793353340291235, 0.608761429008721, -0.608761429008721, 0.793353340291235,
  -0.38268343236509, 0.923879532511287, -0.130526192220052, 0.99144486137381,
  0.130526192220052, 0.99144486137381, 0.38268343236509, 0.923879532511287,
  0.608761429008721, 0.793353340291235, 0.793353340291235, 0.608761429008721,
  0.923879532511287, 0.38268343236509, 0.99144486137381, 0.130526192220051,
  0.99144486137381, -0.130526192220051, 0.923879532511287, -0.38268343236509,
  0.793353340291235, -0.60876142900872, 0.608761429008721, -0.793353340291235,
  0.38268343236509, -0.923879532511287, 0.130526192220052, -0.99144486137381,
  -0.130526192220052, -0.99144486137381, -0.38268343236509, -0.923879532511287,
  -0.608761429008721, -0.793353340291235, -0.793353340291235, -0.608761429008721,
  -0.923879532511287, -0.38268343236509, -0.99144486137381, -0.130526192220052,
  -0.99144486137381, 0.130526192220051, -0.923879532511287, 0.38268343236509,
  -0.793353340291235, 0.608761429008721, -0.608761429008721, 0.793353340291235,
  -0.38268343236509, 0.923879532511287, -0.130526192220052, 0.99144486137381,
  0.130526192220052, 0.99144486137381, 0.38268343236509, 0.923879532511287,
  0.608761429008721, 0.793353340291235, 0.793353340291235, 0.608761429008721,
  0.923879532511287, 0.38268343236509, 0.99144486137381, 0.130526192220051,
  0.99144486137381, -0.130526192220051, 0.923879532511287, -0.38268343236509,
  0.793353340291235, -0.60876142900872, 0.608761429008721, -0.793353340291235,
  0.38268343236509, -0.923879532511287, 0.130526192220052, -0.99144486137381,
  -0.130526192220052, -0.99144486137381, -0.38268343236509, -0.923879532511287,
  -0.608761429008721, -0.793353340291235, -0.793353340291235, -0.608761429008721,
  -0.923879532511287, -0.38268343236509, -0.99144486137381, -0.130526192220052,
  -0.99144486137381, 0.130526192220051, -0.923879532511287, 0.38268343236509,
  -0.793353340291235, 0.608761429008721, -0.608761429008721, 0.793353340291235,
  -0.38268343236509, 0.923879532511287, -0.130526192220052, 0.99144486137381,
  0.38268343236509, 0.923879532511287, 0.923879532511287, 0.38268343236509,
  0.923879532511287, -0.38268343236509, 0.38268343236509, -0.923879532511287,
  -0.38268343236509, -0.923879532511287, -0.923879532511287, -0.38268343236509,
  -0.923879532511287, 0.38268343236509, -0.38268343236509, 0.923879532511287]

set_option maxHeartbeats 2000000 in
/-- The 512-entry RandVecs2D table from the source (256 unit-vector pairs). -/
def RANDVECS2D : List Rat := [
  -0.2700222198, -0.9628540911, 0.3863092627, -0.9223693152,
  0.04444859006, -0.999011673, -0.5992523158, -0.8005602176,
  -0.7819280288, 0.6233687174, 0.9464672271, 0.3227999196,
  -0.6514146797, -0.7587218957, 0.9378472289, 0.347048376,
  -0.8497875957, -0.5271252623, -0.879042592, 0.4767432447,
  -0.892300288, -0.4514423508, -0.379844434, -0.9250503802,
  -0.9951650832, 0.0982163789, 0.7724397808, -0.6350880136,
  0.7573283322, -0.6530343002, -0.9928004525, -0.119780055,
  -0.0532665713, 0.9985803285, 0.9754253726, -0.2203300762,
  -0.7665018163, 0.6422421394, 0.991636706, 0.1290606184,
  -0.994696838, 0.1028503788, -0.5379205513, -0.84299554,
  0.5022815471, -0.8647041387, 0.4559821461, -0.8899889226,
  -0.8659131224, -0.5001944266, 0.0879458407, -0.9961252577,
  -0.5051684983, 0.8630207346, 0.7753185226, -0.6315704146,
  -0.6921944612, 0.7217110418, -0.5191659449, -0.8546734591,
  0.8978622882, -0.4402764035, -0.1706774107, 0.9853269617,
  -0.9353430106, -0.3537420705, -0.9992404798, 0.03896746794,
  -0.2882064021, -0.9575683108, -0.9663811329, 0.2571137995,
  -0.8759714238, -0.4823630009, -0.8303123018, -0.5572983775,
  0.05110133755, -0.9986934731, -0.8558373281, -0.5172450752,
  0.09887025282, 0.9951003332, 0.9189016087, 0.3944867976,
  -0.2439375892, -0.9697909324, -0.8121409387, -0.5834613061,
  -0.9910431363, 0.1335421355, 0.8492423985, -0.5280031709,
  -0.9717838994, -0.2358729591, 0.9949457207, 0.1004142068,
  0.6241065508, -0.7813392434, 0.662910307, 0.7486988212,
  -0.7197418176, 0.6942418282, -0.8143370775, -0.5803922158,
  0.104521054, -0.9945226741, -0.1065926113, -0.9943027784,
  0.445799684, -0.8951327509, 0.105547406, 0.9944142724,
  -0.992790267, 0.1198644477, -0.8334366408, 0.552615025,
  0.9115561563, -0.4111755999, 0.8285544909, -0.5599084351,
  0.7217097654, -0.6921957921, 0.4940492677, -0.8694339084,
  -0.3652321272, -0.9309164803, -0.9696606758, 0.2444548501,
  0.08925509731, -0.996008799, 0.5354071276, -0.8445941083,
  -0.1053576186, 0.9944343981, -0.9890284586, 0.1477251101,
  0.004856104961, 0.9999882091, 0.9885598478, 0.1508291331,
  0.9286129562, -0.3710498316, -0.5832393863, -0.8123003252,
  0.3015207509, 0.9534596146, -0.9575110528, 0.2883965738,
  0.9715802154, -0.2367105511, 0.229981792, 0.9731949318,
  0.955763816, -0.2941352207, 0.740956116, 0.6715534485,
  -0.9971513787, -0.07542630764, 0.6905710663, -0.7232645452,
  -0.290713703, -0.9568100872, 0.5912777791, -0.8064679708,
  -0.9454592212, -0.325740481, 0.6664455681, 0.74555369,
  0.6236134912, 0.7817328275, 0.9126993851, -0.4086316587,
  -0.8191762011, 0.5735419353, -0.8812745759, -0.4726046147,
  0.9953313627, 0.09651672651, 0.9855650846, -0.1692969699,
  -0.8495980887, 0.5274306472, 0.6174853946, -0.7865823463,
  0.8508156371, 0.52546432, 0.9985032451, -0.05469249926,
  0.1971371563, -0.9803759185, 0.6607855748, -0.7505747292,
  -0.03097494063, 0.9995201614, -0.6731660801, 0.739491331,
  -0.7195018362, -0.6944905383, 0.9727511689, 0.2318515979,
  0.9997059088, -0.0242506907, 0.4421787429, -0.8969269532,
  0.9981350961, -0.061043673, -0.9173660799, -0.3980445648,
  -0.8150056635, -0.5794529907, -0.8789331304, 0.4769450202,
  0.0158605829, 0.999874213, -0.8095464474, 0.5870558317,
  -0.9165898907, -0.3998286786, -0.8023542565, 0.5968480938,
  -0.5176737917, 0.8555780767, -0.8154407307, -0.5788405779,
  0.4022010347, -0.9155513791, -0.9052556868, -0.4248672045,
  0.7317445619, 0.6815789728, -0.5647632201, -0.8252529947,
  -0.8403276335, -0.5420788397, -0.9314281527, 0.363925262,
  0.5238198472, 0.8518290719, 0.7432803869, -0.6689800195,
  -0.985371561, -0.1704197369, 0.4601468731, 0.88784281,
  0.825855404, 0.5638819483, 0.6182366099, 0.7859920446,
  0.8331502863, -0.553046653, 0.1500307506, 0.9886813308,
  -0.662330369, -0.7492119075, -0.668598664, 0.743623444,
  0.7025606278, 0.7116238924, -0.5419389763, -0.8404178401,
  -0.3388616456, 0.9408362159, 0.8331530315, 0.5530425174,
  -0.2989720662, -0.9542618632, 0.2638522993, 0.9645630949,
  0.124108739, -0.9922686234, -0.7282649308, -0.6852956957,
  0.6962500149, 0.7177993569, -0.9183535368, 0.3957610156,
  -0.6326102274, -0.7744703352, -0.9331891859, -0.359385508,
  -0.1153779357, -0.9933216659, 0.9514974788, -0.3076565421,
  -0.08987977445, -0.9959526224, 0.6678496916, 0.7442961705,
  0.7952400393, -0.6062947138, -0.6462007402, -0.7631674805,
  -0.2733598753, 0.9619118351, 0.9669590226, -0.254931851,
  -0.9792894595, 0.2024651934, -0.5369502995, -0.8436138784,
  -0.270036471, -0.9628500944, -0.6400277131, 0.7683518247,
  -0.7854537493, -0.6189203566, 0.06005905383, -0.9981948257,
  -0.02455770378, 0.9996984141, -0.65983623, 0.751409442,
  -0.6253894466, -0.7803127835, -0.6210408851, -0.7837781695,
  0.8348888491, 0.5504185768, -0.1592275245, 0.9872419133,
  0.8367622488, 0.5475663786, -0.8675753916, -0.4973056806,
  -0.2022662628, -0.9793305667, 0.9399189937, 0.3413975472,
  0.9877404807, -0.1561049093, -0.9034455656, 0.4287028224,
  0.1269804218, -0.9919052235, -0.3819600854, 0.924178821,
  0.9754625894, 0.2201652486, -0.3204015856, -0.9472818081,
  -0.9874760884, 0.1577687387, 0.02535348474, -0.9996785487,
  0.4835130794, -0.8753371362, -0.2850799925, -0.9585037287,
  -0.06805516006, -0.99768156, -0.7885244045, -0.6150034663,
  0.3185392127, -0.9479096845, 0.8880043089, 0.4598351306,
  0.6476921488, -0.7619021462, 0.9820241299, 0.1887554194,
  0.9357275128, -0.3527237187, -0.8894895414, 0.4569555293,
  0.7922791302, 0.6101588153, 0.7483818261, 0.6632681526,
  -0.7288929755, -0.6846276581, 0.8729032783, -0.4878932944,
  0.8288345784, 0.5594937369, 0.08074567077, 0.9967347374,
  0.9799148216, -0.1994165048, -0.580730673, -0.8140957471,
  -0.4700049791, -0.8826637636, 0.2409492979, 0.9705377045,
  0.9437816757, -0.3305694308, -0.8927998638, -0.4504535528,
  -0.8069622304, 0.5906030467, 0.06258973166, 0.9980393407,
  -0.9312597469, 0.3643559849, 0.5777449785, 0.8162173362,
  -0.3360095855, -0.941858566, 0.697932075, -0.7161639607,
  -0.002008157227, -0.9999979837, -0.1827294312, -0.9831632392,
  -0.6523911722, 0.7578824173, -0.4302626911, -0.9027037258,
  -0.9985126289, -0.05452091251, -0.01028102172, -0.9999471489,
  -0.4946071129, 0.8691166802, -0.2999350194, 0.9539596344,
  0.8165471961, 0.5772786819, 0.2697460475, 0.962931498,
  -0.7306287391, -0.6827749597, -0.7590952064, -0.6509796216,
  -0.907053853, 0.4210146171, -0.5104861064, -0.8598860013,
  0.8613350597, 0.5080373165, 0.5007881595, -0.8655698812,
  -0.654158152, 0.7563577938, -0.8382755311, -0.545246856,
  0.6940070834, 0.7199681717, 0.06950936031, 0.9975812994,
  0.1702942185, -0.9853932612, 0.2695973274, 0.9629731466,
  0.5519612192, -0.8338697815, 0.225657487, -0.9742067022,
  0.4215262855, -0.9068161835, 0.4881873305, -0.8727388672,
  -0.3683854996, -0.9296731273, -0.9825390578, 0.1860564427,
  0.81256471, 0.5828709909, 0.3196460933, -0.9475370046,
  0.9570913859, 0.2897862643, -0.6876655497, -0.7260276109,
  -0.9988770922, -0.047376731, -0.1250179027, 0.992154486,
  -0.8280133617, 0.560708367, 0.9324863769, -0.3612051451,
  0.6394653183, 0.7688199442, -0.01623847064, -0.9998681473,
  -0.9955014666, -0.09474613458, -0.81453315, 0.580117012,
  0.4037327978, -0.9148769469, 0.9944263371, 0.1054336766,
  -0.1624711654, 0.9867132919, -0.9949487814, -0.100383875,
  -0.6995302564, 0.7146029809, 0.5263414922, -0.85027327,
  -0.5395221479, 0.841971408, 0.6579370318, 0.7530729462,
  0.01426758847, -0.9998982128, -0.6734383991, 0.7392433447,
  0.639412098, -0.7688642071, 0.9211571421, 0.3891908523,
  -0.146637214, -0.9891903394, -0.782318098, 0.6228791163,
  -0.5039610839, -0.8637263605, -0.7743120191, -0.6328039957]

/-- Table read `_GRADIENTS_2D[i]`. -/
def gradAt (i : Nat) : Rat := GRADIENTS2D.getD i 0

/-- Table read `_RAND_VECS_2D[i]`. -/
def randAt (i : Nat) : Rat := RANDVECS2D.getD i 0

/-- `_grad_coord`: dot product of the looked-up gradient with `(xd, yd)`. -/
def gradCoord (seed xp yp : Int) (xd yd : Rat) : Rat :=
  let hi := gradIdx seed xp yp
  xd * gradAt hi + yd * gradAt (hi ||| 1)

/-- `_grad_coord_out`: random vector output for domain warp. -/
def gradCoordOut (seed xp yp : Int) : Rat × Rat :=
  let hi := randIdx (hash2d seed xp yp)
  (randAt hi, randAt (hi ||| 1))

/-- `_grad_coord_dual`: gradient dot product scaled onto a random vector. -/
def gradCoordDual (seed xp yp : Int) (xd yd : Rat) : Rat × Rat :=
  let h := hash2d seed xp yp
  let idx1 := bits32 h &&& 254
  let idx2 := randIdxDual h
  let value := xd * gradAt idx1 + yd * gradAt (idx1 ||| 1)
  (value * randAt idx2, value * randAt (idx2 ||| 1))

/-! ## Interpolation helpers (`kernels.py`) -/

/-- `_interp_hermite`. -/
def hermite (t : Rat) : Rat := t * t * (3 - 2 * t)

/-- `_interp_quintic`. -/
def quintic (t : Rat) : Rat := t * t * t * (t * (t * 6 - 15) + 10)

/-- `_lerp` (used at both rational and real type in this embedding). -/
def lerp {a : Type} [Add a] [Mul a] [Sub a] (x y t : a) : a := x + t * (y - x)

/-- `_cubic_lerp`. -/
def cubicLerp (a b c d t : Rat) : Rat :=
  let p := (d - c) - (a - b)
  t * t * t * p + t * t * ((a - b) - p) + t * (c - a) + b

/-! ## Single-octave samplers (`kernels.py`) -/

/-- `_single_perlin`. -/
def singlePerlin (seed : Int) (x y : Rat) : Rat :=
  let x0 : Int := ⌊x⌋
  let y0 : Int := ⌊y⌋
  let xd0 := x - x0
  let yd0 := y - y0
  let xd1 := xd0 - 1
  let yd1 := yd0 - 1
  let xs := quintic xd0
  let ys := quintic yd0
  let x0p := mul32 x0 PRIME_X
  let y0p := mul32 y0 PRIME_Y
  let x1p := i32 (x0p + PRIME_X)
  let y1p := i32 (y0p + PRIME_Y)
  let xf0 := lerp (gradCoord seed x0p y0p xd0 yd0) (gradCoord seed x1p y0p xd1 yd0) xs
  let xf1 := lerp (gradCoord seed x0p y1p xd0 yd1) (gradCoord seed x1p y1p xd1 yd1) xs
  lerp xf0 xf1 ys * 1.4247691104677813

/-- The exact `G2` literal of the simplex samplers. -/
def G2 : Rat := 0.21132486540518711774542560974902

/-- `_single_simplex` (OpenSimplex2; input already skewed). -/
def singleSimplex (seed : Int) (x y : Rat) : Rat :=
  let i : Int := ⌊x⌋
  let j : Int := ⌊y⌋
  let xi := x - i
  let yi := y - j
  let t := (xi + yi) * G2
  let x0 := xi - t
  let y0 := yi - t
  let ip := mul32 i PRIME_X
  let jp := mul32 j PRIME_Y
  let a := 1/2 - x0 * x0 - y0 * y0
  let n0 := if a > 0 then (a * a) * (a * a) * gradCoord seed ip jp x0 y0 else 0
  let cVal := (2 * (1 - 2 * G2) * (1 / G2 - 2)) * t + ((-2 * (1 - 2 * G2) * (1 - 2 * G2)) + a)
  let n2 :=
    if cVal > 0 then
      let x2 := x0 + (2 * G2 - 1)
      let y2 := y0 + (2 * G2 - 1)
      (cVal * cVal) * (cVal * cVal) * gradCoord seed (i32 (ip + PRIME_X)) (i32 (jp + PRIME_Y)) x2 y2
    else 0
  let n1 :=
    if y0 > x0 then
      let x1 := x0 + G2
      let y1 := y0 + (G2 - 1)
      let b := 1/2 - x1 * x1 - y1 * y1
      if b > 0 then (b * b) * (b * b) * gradCoord seed ip (i32 (jp + PRIME_Y)) x1 y1 else 0
    else
      let x1 := x0 + (G2 - 1)
      let y1 := y0 + G2
      let b := 1/2 - x1 * x1 - y1 * y1
      if b > 0 then (b * b) * (b * b) * gradCoord seed (i32 (ip + PRIME_X)) jp x1 y1 else 0
  (n0 + n1 + n2) * 99.83685446303647

/-- `_single_opensimplex2s` (OpenSimplex2S; input already skewed). -/
def singleOpenSimplex2S (seed : Int) (x y : Rat) : Rat :=
  let i : Int := ⌊x⌋
  let j : Int := ⌊y⌋
  let xi := x - i
  let yi := y - j
  let ip := mul32 i PRIME_X
  let jp := mul32 j PRIME_Y
  let i1 := i32 (ip + PRIME_X)
  let j1 := i32 (jp + PRIME_Y)
  let t := (xi + yi) * G2
  let x0 := xi - t
  let y0 := yi - t
  let a0 := (2/3 : Rat) - x0 * x0 - y0 * y0
  let v0 := (a0 * a0) * (a0 * a0) * gradCoord seed ip jp x0 y0
  let a1 := (2 * (1 - 2 * G2) * (1 / G2 - 2)) * t + ((-2 * (1 - 2 * G2) * (1 - 2 * G2)) + a0)
  let x1 := x0 - (1 - 2 * G2)
  let y1 := y0 - (1 - 2 * G2)
  let v1 := v0 + (a1 * a1) * (a1 * a1) * gradCoord seed i1 j1 x1 y1
  let xmyi := xi - yi
  let v2 :=
    if t > G2 then
      let vA :=
        if xi + xmyi > 1 then
          let x2 := x0 + (3 * G2 - 2)
          let y2 := y0 + (3 * G2 - 1)
          let a2 := (2/3 : Rat) - x2 * x2 - y2 * y2
          if a2 > 0 then (a2 * a2) * (a2 * a2) * gradCoord seed (i32 (ip + PRIME_X * 2)) j1 x2 y2 else 0
        else
          let x2 := x0 + G2
          let y2 := y0 + (G2 - 1)
          let a2 := (2/3 : Rat) - x2 * x2 - y2 * y2
          if a2 > 0 then (a2 * a2) * (a2 * a2) * gradCoord seed ip j1 x2 y2 else 0
      let vB :=
        if yi - xmyi > 1 then
          let x3 := x0 + (3 * G2 - 1)
          let y3 := y0 + (3 * G2 - 2)
          let a3 := (2/3 : Rat) - x3 * x3 - y3 * y3
          if a3 > 0 then (a3 * a3) * (a3 * a3) * gradCoord seed i1 (i32 (jp + PRIME_Y * 2)) x3 y3 else 0
        else
          let x3 := x0 + (G2 - 1)
          let y3 := y0 + G2
          let a3 := (2/3 : Rat) - x3 * x3 - y3 * y3
          if a3 > 0 then (a3 * a3) * (a3 * a3) * gradCoord seed i1 jp x3 y3 else 0
      vA + vB
    else
      let vA :=
        if xi + xmyi < 0 then
          let x2 := x0 + (1 - G2)
          let y2 := y0 - G2
          let a2 := (2/3 : Rat) - x2 * x2 - y2 * y2
          if a2 > 0 then (a2 * a2) * (a2 * a2) * gradCoord seed (i32 (ip - PRIME_X)) jp x2 y2 else 0
        else
          let x2 := x0 + (G2 - 1)
          let y2 := y0 + G2
          let a2 := (2/3 : Rat) - x2 * x2 - y2 * y2
          if a2 > 0 then (a2 * a2) * (a2 * a2) * gradCoord seed i1 jp x2 y2 else 0
      let vB :=
        if yi < xmyi then
          let x2 := x0 - G2
          let y2 := y0 - (G2 - 1)
          let a2 := (2/3 : Rat) - x2 * x2 - y2 * y2
          if a2 > 0 then (a2 * a2) * (a2 * a2) * gradCoord seed ip (i32 (jp - PRIME_Y)) x2 y2 else 0
        else
          let x2 := x0 + G2
          let y2 := y0 + (G2 - 1)
          let a2 := (2/3 : Rat) - x2 * x2 - y2 * y2
          if a2 > 0 then (a2 * a2) * (a2 * a2) * gradCoord seed ip j1 x2 y2 else 0
      vA + vB
  (v1 + v2) * 18.24196194486065

/-- `_single_value`. -/
def singleValue (seed : Int) (x y : Rat) : Rat :=
  let x0 : Int := ⌊x⌋
  let y0 : Int := ⌊y⌋
  let xs := hermite (x - x0)
  let ys := hermite (y - y0)
  let x0p := mul32 x0 PRIME_X
  let y0p := mul32 y0 PRIME_Y
  let x1p := i32 (x0p + PRIME_X)
  let y1p := i32 (y0p + PRIME_Y)
  let xf0 := lerp (valCoord seed x0p y0p) (valCoord seed x1p y0p) xs
  let xf1 := lerp (valCoord seed x0p y1p) (valCoord seed x1p y1p) xs
  lerp xf0 xf1 ys

/-- `_single_value_cubic`. -/
def singleValueCubic (seed : Int) (x y : Rat) : Rat :=
  let x1 : Int := ⌊x⌋
  let y1 : Int := ⌊y⌋
  let xs := x - x1
  let ys := y - y1
  let x1p := mul32 x1 PRIME_X
  let y1p := mul32 y1 PRIME_Y
  let x0p := i32 (x1p - PRIME_X)
  let y0p := i32 (y1p - PRIME_Y)
  let x2p := i32 (x1p + PRIME_X)
  let y2p := i32 (y1p + PRIME_Y)
  let x3p := i32 (x1p + PRIME_X * 2)
  let y3p := i32 (y1p + PRIME_Y * 2)
  cubicLerp
    (cubicLerp (valCoord seed x0p y0p) (valCoord seed x1p y0p)
               (valCoord seed x2p y0p) (valCoord seed x3p y0p) xs)
    (cubicLerp (valCoord seed x0p y1p) (valCoord seed x1p y1p)
               (valCoord seed x2p y1p) (valCoord seed x3p y1p) xs)
    (cubicLerp (valCoord seed x0p y2p) (valCoord seed x1p y2p)
               (valCoord seed x2p y2p) (valCoord seed x3p y2p) xs)
    (cubicLerp (valCoord seed x0p y3p) (valCoord seed x1p y3p)
               (valCoord seed x2p y3p) (valCoord seed x3p y3p) xs)
    ys * (1 / (3/2 * (3/2)))

/-! ## Cellular (Worley) sampler (`_single_cellular`) -/

/-- Running state of the cellular nearest/second-nearest scan:
`distance0`, `distance1`, `closest_hash`. -/
structure CellState where
  d0 : Rat
  d1 : Rat
  ch : Int
deriving DecidableEq, Repr

/-- One candidate update of the cellular scan (the `if new_dist < distance1`
block in the source). -/
def cellUpdate (st : CellState) (newDist : Rat) (h : Int) : CellState :=
  if newDist < st.d1 then
    if newDist < st.d0 then ⟨newDist, st.d0, h⟩
    else ⟨st.d0, newDist, st.ch⟩
  else st

/-- The distance of one jittered cell centre under the selected metric
(`dist_func` codes 0-3; anything else falls into the Hybrid branch). -/
def cellDist (df : Int) (vx vy : Rat) : Rat :=
  if df = 0 then vx * vx + vy * vy
  else if df = 1 then vx * vx + vy * vy
  else if df = 2 then |vx| + |vy|
  else (|vx| + |vy|) + (vx * vx + vy * vy)

/-- The body of the 3x3 neighbourhood scan of `_single_cellular` for one
candidate cell `(xi, yi)`. -/
def cellStep (seed : Int) (x y : Rat) (df : Int) (cellJitter : Rat)
    (st : CellState) (c : Int × Int) : CellState :=
  let xp := mul32 c.1 PRIME_X
  let yp := mul32 c.2 PRIME_Y
  let h := hash2d seed xp yp
  let idx := randIdx h
  let vx := ((c.1 : Rat) - x) + randAt idx * cellJitter
  let vy := ((c.2 : Rat) - y) + randAt (idx ||| 1) * cellJitter
  cellUpdate st (cellDist df vx vy) h

/-- The 3x3 neighbourhood scan of `_single_cellular`, producing the nearest
and second-nearest (raw, pre-sqrt) distances and the closest cell's hash. -/
def cellDistLoop (seed : Int) (x y : Rat) (df : Int) (jitter : Rat) : CellState :=
  let xr : Int := ⌊x + 1/2⌋
  let yr : Int := ⌊y + 1/2⌋
  let cellJitter := (0.43701595 : Rat) * jitter
  let cells := [xr - 1, xr, xr + 1].flatMap fun xi =>
    [yr - 1, yr, yr + 1].map fun yi => (xi, yi)
  cells.foldl (cellStep seed x y df cellJitter) ⟨10000000000, 10000000000, 0⟩

/-- `_single_cellular`: the final sqrt block and return-type dispatch on top of
the distance scan.  The sqrt forces this definition into the reals. -/
noncomputable def singleCellular (seed : Int) (x y : Rat) (df rt : Int)
    (jitter : Rat) : Real :=
  let st := cellDistLoop seed x y df jitter
  let dist0 : Real := if df = 0 ∧ 1 ≤ rt then Real.sqrt (st.d0 : Real) else (st.d0 : Real)
  let dist1 : Real :=
    if df = 0 ∧ 1 ≤ rt ∧ 2 ≤ rt then Real.sqrt (st.d1 : Real) else (st.d1 : Real)
  if rt = 0 then (st.ch : Real) * (1 / 2147483648)
  else if rt = 1 then dist0 - 1
  else if rt = 2 then dist1 - 1
  else if rt = 3 then (dist1 + dist0) * (1/2) - 1
  else if rt = 4 then dist1 - dist0 - 1
  else if rt = 5 then dist1 * dist0 * (1/2) - 1
  else if dist1 ≠ 0 then dist0 / dist1 - 1 else -1

/-! ## Single-noise dispatch and fractal combinators (`kernels.py`) -/

/-- `_apply_single`: dispatch on the noise-type code. -/
noncomputable def applySingle (seed : Int) (x y : Rat) (nt df rt : Int)
    (jitter : Rat) : Real :=
  if nt = 0 then (singleSimplex seed x y : Real)
  else if nt = 1 then (singleOpenSimplex2S seed x y : Real)
  else if nt = 2 then singleCellular seed x y df rt jitter
  else if nt = 3 then (singlePerlin seed x y : Real)
  else if nt = 4 then (singleValueCubic seed x y : Real)
  else (singleValue seed x y : Real)

/-- Truncation toward zero, Python `int()` on a float. -/
noncomputable def truncR (u : Real) : Int := if 0 ≤ u then ⌊u⌋ else ⌈u⌉

/-- `_ping_pong`. -/
noncomputable def pingPongF (t : Real) : Real :=
  let t2 := t - (truncR (t * (1/2)) : Real) * 2
  if t2 < 1 then t2 else 2 - t2

/-- The FBM octave loop of `_fractal_noise` (`fractal_type == 1`). -/
noncomputable def fbmLoop (nt df rt : Int) (jitter lac gain ws : Rat) :
    Nat → Int → Rat → Rat → Real → Real → Real
  | 0, _, _, _, total, _ => total
  | n + 1, seed, x, y, total, amp =>
    let noise := applySingle seed x y nt df rt jitter
    let ampWeight := lerp 1 (min (noise + 1) 2 * (1/2)) (ws : Real)
    fbmLoop nt df rt jitter lac gain ws n (i32 (seed + 1)) (x * lac) (y * lac)
      (total + noise * amp) (amp * (ampWeight * (gain : Real)))

/-- The Ridged octave loop of `_fractal_noise` (`fractal_type == 2`). -/
noncomputable def ridgedLoop (nt df rt : Int) (jitter lac gain ws : Rat) :
    Nat → Int → Rat → Rat → Real → Real → Real
  | 0, _, _, _, total, _ => total
  | n + 1, seed, x, y, total, amp =>
    let noise := |applySingle seed x y nt df rt jitter|
    let ampWeight := lerp 1 (1 - noise) (ws : Real)
    ridgedLoop nt df rt jitter lac gain ws n (i32 (seed + 1)) (x * lac) (y * lac)
      (total + (noise * (-2) + 1) * amp) (amp * (ampWeight * (gain : Real)))

/-- The PingPong octave loop of `_fractal_noise` (`fractal_type == 3`). -/
noncomputable def pingPongLoop (nt df rt : Int) (jitter lac gain ws pps : Rat) :
    Nat → Int → Rat → Rat → Real → Real → Real
  | 0, _, _, _, total, _ => total
  | n + 1, seed, x, y, total, amp =>
    let noise := pingPongF ((applySingle seed x y nt df rt jitter + 1) * (pps : Real))
    let ampWeight := lerp 1 noise (ws : Real)
    pingPongLoop nt df rt jitter lac gain ws pps n (i32 (seed + 1)) (x * lac) (y * lac)
      (total + (noise - 1/2) * 2 * amp) (amp * (ampWeight * (gain : Real)))

/-- `_fractal_noise`: single call for `fractal_type == 0`, otherwise the
matching octave loop starting from the wrapped seed, zero total and
amplitude `fractal_bounding`. -/
noncomputable def fractalNoise (seed0 : Int) (x y : Rat) (nt ft : Int)
    (octaves : Nat) (lac gain ws pps fb : Rat) (df rt : Int) (jitter : Rat) : Real :=
  if ft = 0 then applySingle (i32 seed0) x y nt df rt jitter
  else if ft = 1 then fbmLoop nt df rt jitter lac gain ws octaves (i32 seed0) x y 0 (fb : Real)
  else if ft = 2 then ridgedLoop nt df rt jitter lac gain ws octaves (i32 seed0) x y 0 (fb : Real)
  else pingPongLoop nt df rt jitter lac gain ws pps octaves (i32 seed0) x y 0 (fb : Real)

/-! Instrumented twins of the octave loops: identical recursion, but they also
return the list of seeds passed to `_apply_single`, one per octave. -/

/-- `fbmLoop` with a trace of per-octave sampler seeds. -/
noncomputable def fbmLoopTr (nt df rt : Int) (jitter lac gain ws : Rat) :
    Nat → Int → Rat → Rat → Real → Real → Real × List Int
  | 0, _, _, _, total, _ => (total, [])
  | n + 1, seed, x, y, total, amp =>
    let noise := applySingle seed x y nt df rt jitter
    let ampWeight := lerp 1 (min (noise + 1) 2 * (1/2)) (ws : Real)
    let rest := fbmLoopTr nt df rt jitter lac gain ws n (i32 (seed + 1)) (x * lac) (y * lac)
      (total + noise * amp) (amp * (ampWeight * (gain : Real)))
    (rest.1, seed :: rest.2)

/-- `ridgedLoop` with a trace of per-octave sampler seeds. -/
noncomputable def ridgedLoopTr (nt df rt : Int) (jitter lac gain ws : Rat) :
    Nat → Int → Rat → Rat → Real → Real → Real × List Int
  | 0, _, _, _, total, _ => (total, [])
  | n + 1, seed, x, y, total, amp =>
    let noise := |applySingle seed x y nt df rt jitter|
    let ampWeight := lerp 1 (1 - noise) (ws : Real)
    let rest := ridgedLoopTr nt df rt jitter lac gain ws n (i32 (seed + 1)) (x * lac) (y * lac)
      (total + (noise * (-2) + 1) * amp) (amp * (ampWeight * (gain : Real)))
    (rest.1, seed :: rest.2)

/-- `pingPongLoop` with a trace of per-octave sampler seeds. -/
noncomputable def pingPongLoopTr (nt df rt : Int) (jitter lac gain ws pps : Rat) :
    Nat → Int → Rat → Rat → Real → Real → Real × List Int
  | 0, _, _, _, total, _ => (total, [])
  | n + 1, seed, x, y, total, amp =>
    let noise := pingPongF ((applySingle seed x y nt df rt jitter + 1) * (pps : Real))
    let ampWeight := lerp 1 noise (ws : Real)
    let rest := pingPongLoopTr nt df rt jitter lac gain ws pps n (i32 (seed + 1)) (x * lac) (y * lac)
      (total + (noise - 1/2) * 2 * amp) (amp * (ampWeight * (gain : Real)))
    (rest.1, seed :: rest.2)

/-- `_fractal_noise` with the per-octave seed trace (empty for the
non-fractal path, which samples once at the wrapped stored seed). -/
noncomputable def fractalNoiseTr (seed0 : Int) (x y : Rat) (nt ft : Int)
    (octaves : Nat) (lac gain ws pps fb : Rat) (df rt : Int) (jitter : Rat) :
    Real × List Int :=
  if ft = 0 then (applySingle (i32 seed0) x y nt df rt jitter, [i32 seed0])
  else if ft = 1 then fbmLoopTr nt df rt jitter lac gain ws octaves (i32 seed0) x y 0 (fb : Real)
  else if ft = 2 then ridgedLoopTr nt df rt jitter lac gain ws octaves (i32 seed0) x y 0 (fb : Real)
  else pingPongLoopTr nt df rt jitter lac gain ws pps octaves (i32 seed0) x y 0 (fb : Real)

/-! ## Batch driver (`noise2d_batch`) -/

/-- The exact `F2` literal of `noise2d_batch`. -/
def skewF2 : Rat := 0.36602540378443864676372317075294

/-- Per-element work of `noise2d_batch`: frequency scaling, the simplex skew
for noise types 0 and 1, then the fractal evaluation. -/
noncomputable def noise2dElem (xv yv : Rat) (seed : Int) (freq : Rat)
    (nt ft : Int) (octaves : Nat) (lac gain ws pps fb : Rat) (df rt : Int)
    (jitter : Rat) : Real :=
  let xs := xv * freq
  let ys := yv * freq
  let p := if nt = 0 ∨ nt = 1 then
      let t := (xs + ys) * skewF2
      (xs + t, ys + t)
    else (xs, ys)
  fractalNoise seed p.1 p.2 nt ft octaves lac gain ws pps fb df rt jitter

/-- `noise2d_batch`: the parallel loop is a pointwise map over the
coordinate arrays. -/
noncomputable def noise2dBatch (x y : List Rat) (seed : Int) (freq : Rat)
    (nt ft : Int) (octaves : Nat) (lac gain ws pps fb : Rat) (df rt : Int)
    (jitter : Rat) : List Real :=
  List.zipWith
    (fun a b => noise2dElem a b seed freq nt ft octaves lac gain ws pps fb df rt jitter)
    x y

/-- `calc_fractal_bounding` loop: `amp_fractal += amp; amp *= gain_abs`. -/
def cfbLoop (g : Rat) : Nat → Rat → Rat → Rat
  | 0, _, af => af
  | n + 1, amp, af => cfbLoop g n (amp * g) (af + amp)

/-- `calc_fractal_bounding(octaves, gain)` from `kernels.py` (the loop runs
`octaves - 1` times starting from `amp = |gain|`, `amp_fractal = 1`). -/
def calcFractalBounding (octaves : Nat) (gain : Rat) : Rat :=
  1 / cfbLoop |gain| (octaves - 1) |gain| 1

/-! ## C2 and C10: hash constant and table index bounds -/

/-- C2: the specification states that the 2D lattice hash multiplies by
`0x27d4eb2d` (decimal 668265261) under wrapping 32-bit arithmetic.  The
source's `_hash2d` (and `_HASH_MUL`) instead multiply by 665099693
(`0x27a49dad`), although the adjacent comment reads `0x27d4eb2d`: at
seed 1 and primed coordinates 0, 0 the code produces 665099693 while the
specified formula produces 668265261. -/
theorem C2_hash_constant_bug :
    hash2d 1 0 0 = 665099693 ∧
    i32 (xor32 (xor32 (i32 1) (i32 0)) (i32 0) * 668265261) = 668265261 ∧
    hash2d 1 0 0 ≠ i32 (xor32 (xor32 (i32 1) (i32 0)) (i32 0) * 668265261) ∧
    HASH_MUL ≠ 668265261 := by
  refine ⟨by decide, by decide, by decide, by decide⟩

theorem grad_index_le (seed xp yp : Int) : gradIdx seed xp yp ≤ 254 :=
  Nat.and_le_right

theorem rand_index_le (h : Int) : randIdx h ≤ 510 :=
  Nat.and_le_right

theorem and_even_of_even_mask (n m : Nat) (hm : m % 2 = 0) : (n &&& m) % 2 = 0 := by
  have h1 : (n &&& m).testBit 0 = (n.testBit 0 && m.testBit 0) := Nat.testBit_land n m 0
  have h2 : m.testBit 0 = false := by
    rw [Nat.testBit_zero]
    simp only [decide_eq_false_iff_not]
    omega
  rw [h2, Bool.and_false, Nat.testBit_zero] at h1
  simp only [decide_eq_false_iff_not] at h1
  omega

set_option maxRecDepth 8192 in
theorem or_one_of_even_lt (n : Nat) (hlt : n < 512) (he : n % 2 = 0) :
    n ||| 1 = n + 1 := by
  revert he
  revert hlt
  revert n
  decide

set_option maxRecDepth 8192 in
/-- C10: every gradient-table index `(h ^ (h >> 15)) & 254` is an even number
in `[0, 254]` and every random-vector index `h & 510` is an even number in
`[0, 510]`; together with the table sizes (256 and 512 entries), both the
read at the index and the read at `index | 1` are in bounds for every
possible hash input. -/
theorem C10_table_indices :
    (∀ seed xp yp : Int,
      gradIdx seed xp yp ≤ 254 ∧
      gradIdx seed xp yp % 2 = 0 ∧
      gradIdx seed xp yp ||| 1 = gradIdx seed xp yp + 1 ∧
      gradIdx seed xp yp + 1 < GRADIENTS2D.length) ∧
    (∀ h : Int,
      randIdx h ≤ 510 ∧
      randIdx h % 2 = 0 ∧
      randIdx h ||| 1 = randIdx h + 1 ∧
      randIdx h + 1 < RANDVECS2D.length) := by
  have hg : GRADIENTS2D.length = 256 := by rfl
  have hr : RANDVECS2D.length = 512 := by rfl
  constructor
  · intro seed xp yp
    have h1 := grad_index_le seed xp yp
    have h2 : gradIdx seed xp yp % 2 = 0 := and_even_of_even_mask _ 254 (by norm_num)
    exact ⟨h1, h2, or_one_of_even_lt _ (by omega) h2, by omega⟩
  · intro h
    have h1 := rand_index_le h
    have h2 : randIdx h % 2 = 0 := and_even_of_even_mask _ 510 (by norm_num)
    exact ⟨h1, h2, or_one_of_even_lt _ (by omega) h2, by omega⟩

/-! ## Cellular invariants and claims C3, C9 -/

theorem cellDist_nonneg (df : Int) (vx vy : Rat) : 0 ≤ cellDist df vx vy := by
  unfold cellDist
  split_ifs <;>
    nlinarith [mul_self_nonneg vx, mul_self_nonneg vy, abs_nonneg vx, abs_nonneg vy]

theorem cellUpdate_inv {st : CellState} (nd : Rat) (h : Int)
    (h0 : 0 ≤ st.d0) (h01 : st.d0 ≤ st.d1) (hnd : 0 ≤ nd) :
    0 ≤ (cellUpdate st nd h).d0 ∧ (cellUpdate st nd h).d0 ≤ (cellUpdate st nd h).d1 := by
  unfold cellUpdate
  split_ifs <;> simp_all <;> linarith

theorem cellStep_inv (seed : Int) (x y : Rat) (df : Int) (cj : Rat)
    (st : CellState) (c : Int × Int) (h0 : 0 ≤ st.d0) (h01 : st.d0 ≤ st.d1) :
    0 ≤ (cellStep seed x y df cj st c).d0 ∧
    (cellStep seed x y df cj st c).d0 ≤ (cellStep seed x y df cj st c).d1 := by
  unfold cellStep
  exact cellUpdate_inv _ _ h0 h01 (cellDist_nonneg df _ _)

theorem cellFold_inv (seed : Int) (x y : Rat) (df : Int) (cj : Rat) :
    ∀ (l : List (Int × Int)) (st : CellState), 0 ≤ st.d0 → st.d0 ≤ st.d1 →
      0 ≤ (l.foldl (cellStep seed x y df cj) st).d0 ∧
      (l.foldl (cellStep seed x y df cj) st).d0 ≤ (l.foldl (cellStep seed x y df cj) st).d1 := by
  intro l
  induction l with
  | nil => intro st h0 h01; exact ⟨h0, h01⟩
  | cons c l ih =>
    intro st h0 h01
    have step := cellStep_inv seed x y df cj st c h0 h01
    exact ih _ step.1 step.2

theorem cellDistLoop_inv (seed : Int) (x y : Rat) (df : Int) (jitter : Rat) :
    0 ≤ (cellDistLoop seed x y df jitter).d0 ∧
    (cellDistLoop seed x y df jitter).d0 ≤ (cellDistLoop seed x y df jitter).d1 := by
  unfold cellDistLoop
  exact cellFold_inv seed x y df _ _ _ (by norm_num) (by norm_num)

/-- Euclidean (code 0) and EuclideanSquared (code 1) produce the same raw
squared distances inside the scan. -/
theorem cellDist_zero_eq_one (vx vy : Rat) : cellDist 0 vx vy = cellDist 1 vx vy := by
  unfold cellDist
  norm_num

theorem cellStep_zero_eq_one (seed : Int) (x y : Rat) (cj : Rat) :
    cellStep seed x y 0 cj = cellStep seed x y 1 cj := by
  funext st c
  unfold cellStep
  simp only [cellDist_zero_eq_one]

theorem cellDistLoop_zero_eq_one (seed : Int) (x y : Rat) (jitter : Rat) :
    cellDistLoop seed x y 0 jitter = cellDistLoop seed x y 1 jitter := by
  unfold cellDistLoop
  simp only [cellStep_zero_eq_one]

/-- The nearest raw squared distance at seed 0, point (0,0), jitter 1 under
the Euclidean metric (evaluated from the embedding by kernel computation). -/
def cellQ0 : Rat := 61114540973358532267526381629929 / 320000000000000000000000000000000

/-- The second-nearest raw squared distance at the same input. -/
def cellQ1 : Rat := 3569276311500017303189561008211337 / 10000000000000000000000000000000000

set_option maxHeartbeats 2000000 in
theorem cellDistLoop_at_origin : cellDistLoop 0 0 0 0 1 = ⟨cellQ0, cellQ1, 0⟩ := by
  have hA : hash2d 0 (mul32 (-1) PRIME_X) (mul32 (-1) PRIME_Y) = 662287156 := by decide
  have hB : hash2d 0 (mul32 (-1) PRIME_X) (mul32 0 PRIME_Y) = -234298581 := by decide
  have hC : hash2d 0 (mul32 (-1) PRIME_X) (mul32 1 PRIME_Y) = -1992486542 := by decide
  have hD : hash2d 0 (mul32 0 PRIME_X) (mul32 (-1) PRIME_Y) = 2142469367 := by decide
  have hE : hash2d 0 (mul32 0 PRIME_X) (mul32 0 PRIME_Y) = 0 := by decide
  have hF : hash2d 0 (mul32 0 PRIME_X) (mul32 1 PRIME_Y) = -2142469367 := by decide
  have hG : hash2d 0 (mul32 1 PRIME_X) (mul32 (-1) PRIME_Y) = -1992486542 := by decide
  have hH : hash2d 0 (mul32 1 PRIME_X) (mul32 0 PRIME_Y) = 234298581 := by decide
  have hI : hash2d 0 (mul32 1 PRIME_X) (mul32 1 PRIME_Y) = 662287156 := by decide
  have iA : randIdx 662287156 = 308 := by decide
  have iB : randIdx (-234298581) = 298 := by decide
  have iC : randIdx (-1992486542) = 370 := by decide
  have iD : randIdx 2142469367 = 246 := by decide
  have iE : randIdx 0 = 0 := by decide
  have iF : randIdx (-2142469367) = 264 := by decide
  have iH : randIdx 234298581 = 212 := by decide
  have o0 : (0 : Nat) ||| 1 = 1 := by decide
  have o212 : (212 : Nat) ||| 1 = 213 := by decide
  have o246 : (246 : Nat) ||| 1 = 247 := by decide
  have o264 : (264 : Nat) ||| 1 = 265 := by decide
  have o298 : (298 : Nat) ||| 1 = 299 := by decide
  have o308 : (308 : Nat) ||| 1 = 309 := by decide
  have o370 : (370 : Nat) ||| 1 = 371 := by decide
  have r0 : randAt 0 = -0.2700222198 := rfl
  have r1 : randAt 1 = -0.9628540911 := rfl
  have r212 : randAt 212 = 0.0158605829 := rfl
  have r213 : randAt 213 = 0.999874213 := rfl
  have r246 : randAt 246 = 0.6182366099 := rfl
  have r247 : randAt 247 = 0.7859920446 := rfl
  have r264 : randAt 264 = -0.2989720662 := rfl
  have r265 : randAt 265 = -0.9542618632 := rfl
  have r298 : randAt 298 = -0.5369502995 := rfl
  have r299 : randAt 299 = -0.8436138784 := rfl
  have r308 : randAt 308 = -0.02455770378 := rfl
  have r309 : randAt 309 = 0.9996984141 := rfl
  have r370 : randAt 370 = 0.8729032783 := rfl
  have r371 : randAt 371 = -0.4878932944 := rfl
  have hfl : (⌊(0 : Rat) + 1/2⌋ : Int) = 0 := by norm_num
  unfold cellDistLoop
  simp only [hfl]
  norm_num [cellStep, cellUpdate, cellDist, hA, hB, hC, hD, hE, hF, hG, hH, hI,
    iA, iB, iC, iD, iE, iF, iH, o0, o212, o246, o264, o298, o308, o370,
    r0, r1, r212, r213, r246, r247, r264, r265, r298, r299, r308, r309, r370, r371,
    cellQ0, cellQ1]

/-- C3: in the cellular sampler, a square root is applied to the nearest
distance exactly for the Euclidean metric (code 0) with a non-CellValue
return type, and to the second-nearest distance exactly when additionally
the return type is at least Distance2; with EuclideanSquared (code 1) no
square root is ever applied, and Euclidean with CellValue coincides with
EuclideanSquared with CellValue.  Concretely, at seed 0 and point (0,0)
the Euclidean CellValue output differs from the Euclidean Distance output
built from the sqrt'd distance. -/
theorem C3_cellular_sqrt_asymmetry :
    (∀ (seed : Int) (x y jitter : Rat),
      singleCellular seed x y 0 1 jitter
        = Real.sqrt ((cellDistLoop seed x y 0 jitter).d0 : Real) - 1 ∧
      singleCellular seed x y 0 2 jitter
        = Real.sqrt ((cellDistLoop seed x y 0 jitter).d1 : Real) - 1 ∧
      singleCellular seed x y 0 0 jitter = singleCellular seed x y 1 0 jitter ∧
      singleCellular seed x y 1 1 jitter = ((cellDistLoop seed x y 1 jitter).d0 : Real) - 1 ∧
      singleCellular seed x y 1 2 jitter = ((cellDistLoop seed x y 1 jitter).d1 : Real) - 1) ∧
    singleCellular 0 0 0 0 0 1 ≠ singleCellular 0 0 0 0 1 1 := by
  constructor
  · intro seed x y jitter
    refine ⟨by simp [singleCellular], by simp [singleCellular], ?_, by simp [singleCellular],
      by simp [singleCellular]⟩
    simp [singleCellular, cellDistLoop_zero_eq_one]
  · have h1 : singleCellular 0 0 0 0 0 1 = 0 := by
      simp [singleCellular, cellDistLoop_at_origin]
    have h2 : singleCellular 0 0 0 0 1 1 = Real.sqrt (cellQ0 : Real) - 1 := by
      simp [singleCellular, cellDistLoop_at_origin]
    have hQlt : (cellQ0 : Real) < 1 := by
      have : cellQ0 < (1 : Rat) := by norm_num [cellQ0]
      exact_mod_cast this
    have hQnn : (0 : Real) ≤ (cellQ0 : Real) := by
      have : (0 : Rat) ≤ cellQ0 := by norm_num [cellQ0]
      exact_mod_cast this
    have hs : Real.sqrt (cellQ0 : Real) < 1 := by
      have := Real.sqrt_lt_sqrt hQnn hQlt
      rwa [Real.sqrt_one] at this
    rw [h1, h2]
    intro hcontra
    have : Real.sqrt (cellQ0 : Real) = 1 := by linarith [hcontra]
    linarith
theorem div_branch_bound (a b : Real) (ha : 0 ≤ a) (hab : a ≤ b) :
    -1 ≤ (if b ≠ 0 then a / b - 1 else -1) ∧ (if b ≠ 0 then a / b - 1 else -1) ≤ 0 := by
  rcases eq_or_ne b 0 with h1 | h1
  · rw [if_neg (by simp [h1])]
    norm_num
  · rw [if_pos h1]
    have hbpos : 0 < b := lt_of_le_of_ne (le_trans ha hab) (Ne.symm h1)
    have hdl : a / b ≤ 1 := (div_le_one hbpos).mpr hab
    have hdn : 0 ≤ a / b := div_nonneg ha (le_of_lt hbpos)
    constructor <;> linarith

/-- C9: the cellular sampler with the Distance2Div return type (code 6) is
total: it returns `distance0 / distance1 - 1` when the second-nearest
distance is nonzero and `-1` when it is zero, so no division by zero is
performed; consequently, since `0 ≤ distance0 ≤ distance1` always holds
after the scan, the Distance2Div output lies in `[-1, 0]` for every seed,
point, metric and jitter. -/
theorem C9_distance2div_total (seed : Int) (x y : Rat) (df : Int) (jitter : Rat) :
    (singleCellular seed x y df 6 jitter =
      (let st := cellDistLoop seed x y df jitter
       let s0 : Real := if df = 0 then Real.sqrt (st.d0 : Real) else (st.d0 : Real)
       let s1 : Real := if df = 0 then Real.sqrt (st.d1 : Real) else (st.d1 : Real)
       if s1 ≠ 0 then s0 / s1 - 1 else -1)) ∧
    -1 ≤ singleCellular seed x y df 6 jitter ∧
    singleCellular seed x y df 6 jitter ≤ 0 := by
  have hinv := cellDistLoop_inv seed x y df jitter
  have h0R : (0 : Real) ≤ ((cellDistLoop seed x y df jitter).d0 : Real) := by
    exact_mod_cast hinv.1
  have h01R : ((cellDistLoop seed x y df jitter).d0 : Real) ≤
      ((cellDistLoop seed x y df jitter).d1 : Real) := by
    exact_mod_cast hinv.2
  have heq : singleCellular seed x y df 6 jitter =
      (let st := cellDistLoop seed x y df jitter
       let s0 : Real := if df = 0 then Real.sqrt (st.d0 : Real) else (st.d0 : Real)
       let s1 : Real := if df = 0 then Real.sqrt (st.d1 : Real) else (st.d1 : Real)
       if s1 ≠ 0 then s0 / s1 - 1 else -1) := by
    by_cases hdf : df = 0 <;> simp [singleCellular, hdf]
  have heq2 : singleCellular seed x y df 6 jitter =
      (if (if df = 0 then Real.sqrt ((cellDistLoop seed x y df jitter).d1 : Real)
           else ((cellDistLoop seed x y df jitter).d1 : Real)) ≠ 0 then
        (if df = 0 then Real.sqrt ((cellDistLoop seed x y df jitter).d0 : Real)
         else ((cellDistLoop seed x y df jitter).d0 : Real)) /
        (if df = 0 then Real.sqrt ((cellDistLoop seed x y df jitter).d1 : Real)
         else ((cellDistLoop seed x y df jitter).d1 : Real)) - 1
       else -1) := heq
  refine ⟨heq, ?_⟩
  rw [heq2]
  by_cases hdf : df = 0
  · subst hdf
    simp only [if_pos (rfl : (0 : Int) = 0)]
    exact div_branch_bound _ _ (Real.sqrt_nonneg _) (Real.sqrt_le_sqrt h01R)
  · simp only [if_neg hdf]
    exact div_branch_bound _ _ h0R h01R
/-! ## C4: per-octave seed schedule -/

theorem fbmLoopTr_fst (nt df rt : Int) (jitter lac gain ws : Rat) :
    ∀ (n : Nat) (seed : Int) (x y : Rat) (total amp : Real),
      (fbmLoopTr nt df rt jitter lac gain ws n seed x y total amp).1
        = fbmLoop nt df rt jitter lac gain ws n seed x y total amp := by
  intro n
  induction n with
  | zero => intro seed x y total amp; rfl
  | succ n ih => intro seed x y total amp; simp only [fbmLoopTr, fbmLoop]; exact ih _ _ _ _ _

theorem ridgedLoopTr_fst (nt df rt : Int) (jitter lac gain ws : Rat) :
    ∀ (n : Nat) (seed : Int) (x y : Rat) (total amp : Real),
      (ridgedLoopTr nt df rt jitter lac gain ws n seed x y total amp).1
        = ridgedLoop nt df rt jitter lac gain ws n seed x y total amp := by
  intro n
  induction n with
  | zero => intro seed x y total amp; rfl
  | succ n ih => intro seed x y total amp; simp only [ridgedLoopTr, ridgedLoop]; exact ih _ _ _ _ _

theorem pingPongLoopTr_fst (nt df rt : Int) (jitter lac gain ws pps : Rat) :
    ∀ (n : Nat) (seed : Int) (x y : Rat) (total amp : Real),
      (pingPongLoopTr nt df rt jitter lac gain ws pps n seed x y total amp).1
        = pingPongLoop nt df rt jitter lac gain ws pps n seed x y total amp := by
  intro n
  induction n with
  | zero => intro seed x y total amp; rfl
  | succ n ih => intro seed x y total amp; simp only [pingPongLoopTr, pingPongLoop]; exact ih _ _ _ _ _

theorem seed_schedule_shift (s : Int) (n : Nat) :
    (List.range (n + 1)).map (fun k : Nat => i32 (s + (k : Int)))
      = i32 s :: (List.range n).map (fun k : Nat => i32 (s + 1 + (k : Int))) := by
  rw [List.range_succ_eq_map, List.map_cons, List.map_map]
  congr 1
  · norm_num
  · apply List.map_congr_left
    intro k _
    simp only [Function.comp]
    congr 1
    push_cast
    ring

theorem fbmLoopTr_snd (nt df rt : Int) (jitter lac gain ws : Rat) :
    ∀ (n : Nat) (s : Int) (x y : Rat) (total amp : Real),
      (fbmLoopTr nt df rt jitter lac gain ws n (i32 s) x y total amp).2
        = (List.range n).map (fun k : Nat => i32 (s + (k : Int))) := by
  intro n
  induction n with
  | zero => intro s x y total amp; rfl
  | succ n ih =>
    intro s x y total amp
    simp only [fbmLoopTr]
    rw [seed_schedule_shift, i32_add_right]
    exact congrArg _ (ih (s + 1) _ _ _ _)

theorem ridgedLoopTr_snd (nt df rt : Int) (jitter lac gain ws : Rat) :
    ∀ (n : Nat) (s : Int) (x y : Rat) (total amp : Real),
      (ridgedLoopTr nt df rt jitter lac gain ws n (i32 s) x y total amp).2
        = (List.range n).map (fun k : Nat => i32 (s + (k : Int))) := by
  intro n
  induction n with
  | zero => intro s x y total amp; rfl
  | succ n ih =>
    intro s x y total amp
    simp only [ridgedLoopTr]
    rw [seed_schedule_shift, i32_add_right]
    exact congrArg _ (ih (s + 1) _ _ _ _)

theorem pingPongLoopTr_snd (nt df rt : Int) (jitter lac gain ws pps : Rat) :
    ∀ (n : Nat) (s : Int) (x y : Rat) (total amp : Real),
      (pingPongLoopTr nt df rt jitter lac gain ws pps n (i32 s) x y total amp).2
        = (List.range n).map (fun k : Nat => i32 (s + (k : Int))) := by
  intro n
  induction n with
  | zero => intro s x y total amp; rfl
  | succ n ih =>
    intro s x y total amp
    simp only [pingPongLoopTr]
    rw [seed_schedule_shift, i32_add_right]
    exact congrArg _ (ih (s + 1) _ _ _ _)

/-- C4: for the FBM, Ridged and PingPong fractal modes, octave `k`
(for `k < octaves`) invokes the single-octave sampler with seed
`i32(seed0 + k)` - the working seed starts from the wrapped stored seed and
is incremented by exactly 1 per octave under wrapping 32-bit arithmetic -
and the instrumented evaluation returns the same value as `_fractal_noise`,
which receives the stored seed by value and never writes it back. -/
theorem C4_per_octave_seed (seed0 : Int) (x y : Rat) (nt ft : Int)
    (oct : Nat) (lac gain ws pps fb : Rat) (df rt : Int) (jitter : Rat)
    (hft : ft = 1 ∨ ft = 2 ∨ ft = 3) :
    (fractalNoiseTr seed0 x y nt ft oct lac gain ws pps fb df rt jitter).1
      = fractalNoise seed0 x y nt ft oct lac gain ws pps fb df rt jitter ∧
    (fractalNoiseTr seed0 x y nt ft oct lac gain ws pps fb df rt jitter).2
      = (List.range oct).map (fun k : Nat => i32 (seed0 + (k : Int))) := by
  rcases hft with h | h | h <;> subst h <;>
    simp [fractalNoiseTr, fractalNoise, fbmLoopTr_fst, ridgedLoopTr_fst, pingPongLoopTr_fst,
      fbmLoopTr_snd, ridgedLoopTr_snd, pingPongLoopTr_snd]

theorem C4_per_octave_seed_witness :
    (fractalNoiseTr 5 0 0 5 1 3 2 (1/2) 0 2 1 1 1 1).2 = [5, 6, 7] := by
  rw [(C4_per_octave_seed 5 0 0 5 1 3 2 (1/2) 0 2 1 1 1 1 (Or.inl rfl)).2]
  decide

/-! ## C5: frequency scaling and simplex skew dispatch -/

/-- C5: the batch driver first multiplies the coordinates by the frequency
and then applies the forward simplex skew `t = (x+y)*F2; x += t; y += t`
exactly for the OpenSimplex2 (0) and OpenSimplex2S (1) noise families; for
Cellular (2), Perlin (3), ValueCubic (4) and Value (5) the frequency-scaled
coordinates are passed to the fractal evaluation unskewed. -/
theorem C5_skew_dispatch (xv yv : Rat) (seed : Int) (freq : Rat) (nt ft : Int)
    (oct : Nat) (lac gain ws pps fb : Rat) (df rt : Int) (jitter : Rat) :
    ((nt = 0 ∨ nt = 1) →
      noise2dElem xv yv seed freq nt ft oct lac gain ws pps fb df rt jitter =
        fractalNoise seed (xv * freq + (xv * freq + yv * freq) * skewF2)
          (yv * freq + (xv * freq + yv * freq) * skewF2)
          nt ft oct lac gain ws pps fb df rt jitter) ∧
    ((nt = 2 ∨ nt = 3 ∨ nt = 4 ∨ nt = 5) →
      noise2dElem xv yv seed freq nt ft oct lac gain ws pps fb df rt jitter =
        fractalNoise seed (xv * freq) (yv * freq)
          nt ft oct lac gain ws pps fb df rt jitter) := by
  constructor
  · intro h
    simp only [noise2dElem, if_pos h]
  · intro h
    have hn : ¬ (nt = 0 ∨ nt = 1) := by rcases h with h | h | h | h <;> subst h <;> norm_num
    simp only [noise2dElem, if_neg hn]

theorem C5_skew_dispatch_witness :
    (noise2dElem 1 2 3 (1/2) 0 1 1 2 (1/2) 0 2 1 1 1 1 =
      fractalNoise 3 (1 * (1/2) + (1 * (1/2) + 2 * (1/2)) * skewF2)
        (2 * (1/2) + (1 * (1/2) + 2 * (1/2)) * skewF2) 0 1 1 2 (1/2) 0 2 1 1 1 1) ∧
    (noise2dElem 1 2 3 (1/2) 3 1 1 2 (1/2) 0 2 1 1 1 1 =
      fractalNoise 3 (1 * (1/2)) (2 * (1/2)) 3 1 1 2 (1/2) 0 2 1 1 1 1) :=
  ⟨(C5_skew_dispatch 1 2 3 (1/2) 0 1 1 2 (1/2) 0 2 1 1 1 1).1 (Or.inl rfl),
   (C5_skew_dispatch 1 2 3 (1/2) 3 1 1 2 (1/2) 0 2 1 1 1 1).2 (Or.inr (Or.inl rfl))⟩
/-! ## C1: output range of the batch evaluation -/

theorem xor32_lb (a b : Int) : -2147483648 ≤ xor32 a b := ofBits32_lb _

theorem xor32_ub (a b : Int) : xor32 a b < 2147483648 := ofBits32_ub _

theorem valCoord_bound (seed xp yp : Int) :
    -1 ≤ valCoord seed xp yp ∧ valCoord seed xp yp ≤ 1 := by
  unfold valCoord
  have hlb := xor32_lb (mul32 (hash2d seed xp yp) (hash2d seed xp yp))
    (shl32 (mul32 (hash2d seed xp yp) (hash2d seed xp yp)) 19)
  have hub := xor32_ub (mul32 (hash2d seed xp yp) (hash2d seed xp yp))
    (shl32 (mul32 (hash2d seed xp yp) (hash2d seed xp yp)) 19)
  have hlbq : (-2147483648 : Rat) ≤ (xor32 (mul32 (hash2d seed xp yp) (hash2d seed xp yp))
      (shl32 (mul32 (hash2d seed xp yp) (hash2d seed xp yp)) 19) : Rat) := by
    exact_mod_cast hlb
  have hubq : (xor32 (mul32 (hash2d seed xp yp) (hash2d seed xp yp))
      (shl32 (mul32 (hash2d seed xp yp) (hash2d seed xp yp)) 19) : Rat) ≤ 2147483648 := by
    exact_mod_cast le_of_lt hub
  constructor <;> nlinarith

theorem hermite_mem {t : Rat} (h0 : 0 ≤ t) (h1 : t ≤ 1) :
    0 ≤ hermite t ∧ hermite t ≤ 1 := by
  unfold hermite
  constructor
  · nlinarith
  · nlinarith [mul_nonneg (mul_self_nonneg (1 - t)) (by linarith : (0 : Rat) ≤ 2 * t + 1)]

theorem fract_nonneg' (x : Rat) : 0 ≤ x - ⌊x⌋ := by
  have h := Int.fract_nonneg x
  rwa [Int.fract] at h

theorem fract_lt_one' (x : Rat) : x - ⌊x⌋ < 1 := by
  have h := Int.fract_lt_one x
  rwa [Int.fract] at h

theorem lerp_bound {a b t : Rat} (ha : -1 ≤ a) (ha2 : a ≤ 1) (hb : -1 ≤ b)
    (hb2 : b ≤ 1) (ht : 0 ≤ t) (ht2 : t ≤ 1) :
    -1 ≤ lerp a b t ∧ lerp a b t ≤ 1 := by
  unfold lerp
  constructor <;> nlinarith

theorem singleValue_bound (seed : Int) (x y : Rat) :
    -1 ≤ singleValue seed x y ∧ singleValue seed x y ≤ 1 := by
  have hx := hermite_mem (fract_nonneg' x) (le_of_lt (fract_lt_one' x))
  have hy := hermite_mem (fract_nonneg' y) (le_of_lt (fract_lt_one' y))
  have A := valCoord_bound seed (mul32 ⌊x⌋ PRIME_X) (mul32 ⌊y⌋ PRIME_Y)
  have B := valCoord_bound seed (i32 (mul32 ⌊x⌋ PRIME_X + PRIME_X)) (mul32 ⌊y⌋ PRIME_Y)
  have C := valCoord_bound seed (mul32 ⌊x⌋ PRIME_X) (i32 (mul32 ⌊y⌋ PRIME_Y + PRIME_Y))
  have D := valCoord_bound seed (i32 (mul32 ⌊x⌋ PRIME_X + PRIME_X))
    (i32 (mul32 ⌊y⌋ PRIME_Y + PRIME_Y))
  have L0 := lerp_bound A.1 A.2 B.1 B.2 hx.1 hx.2
  have L1 := lerp_bound C.1 C.2 D.1 D.2 hx.1 hx.2
  exact lerp_bound L0.1 L0.2 L1.1 L1.2 hy.1 hy.2

theorem applySingle_value (seed : Int) (x y : Rat) (df rt : Int) (j : Rat) :
    applySingle seed x y 5 df rt j = ((singleValue seed x y : Rat) : Real) := by
  norm_num [applySingle]

/-- Closed form of the `calc_fractal_bounding` accumulator: the geometric sum
`1 + g + g^2 + ...` with `n` terms. -/
def geomSum (g : Rat) : Nat → Rat
  | 0 => 0
  | n + 1 => 1 + g * geomSum g n

theorem cfbLoop_eq (g : Rat) :
    ∀ (n : Nat) (amp af : Rat), cfbLoop g n amp af = af + amp * geomSum g n := by
  intro n
  induction n with
  | zero => intro amp af; simp [cfbLoop, geomSum]
  | succ n ih =>
    intro amp af
    rw [cfbLoop, ih, geomSum]
    ring

theorem geomSum_nonneg (g : Rat) (hg : 0 ≤ g) : ∀ n, 0 ≤ geomSum g n := by
  intro n
  induction n with
  | zero => simp [geomSum]
  | succ n ih => rw [geomSum]; nlinarith

theorem geomSum_ge_one (g : Rat) (hg : 0 ≤ g) (n : Nat) : 1 ≤ geomSum g (n + 1) := by
  rw [geomSum]
  nlinarith [geomSum_nonneg g hg n]

theorem calcFB_eq (oct : Nat) (g : Rat) (hoct : 1 ≤ oct) (hg : 0 ≤ g) :
    calcFractalBounding oct g = 1 / geomSum g oct := by
  obtain ⟨m, rfl⟩ : ∃ m, oct = m + 1 := ⟨oct - 1, by omega⟩
  unfold calcFractalBounding
  rw [abs_of_nonneg hg]
  have h1 : m + 1 - 1 = m := by omega
  rw [h1, cfbLoop_eq, geomSum]

theorem calcFB_mul (oct : Nat) (g : Rat) (hoct : 1 ≤ oct) (hg : 0 ≤ g) :
    calcFractalBounding oct g * geomSum g oct = 1 := by
  rw [calcFB_eq oct g hoct hg]
  have hpos : 0 < geomSum g oct := by
    obtain ⟨m, rfl⟩ : ∃ m, oct = m + 1 := ⟨oct - 1, by omega⟩
    linarith [geomSum_ge_one g hg m]
  field_simp

theorem calcFB_nonneg (oct : Nat) (g : Rat) (hoct : 1 ≤ oct) (hg : 0 ≤ g) :
    0 ≤ calcFractalBounding oct g := by
  rw [calcFB_eq oct g hoct hg]
  have hpos : 0 < geomSum g oct := by
    obtain ⟨m, rfl⟩ : ∃ m, oct = m + 1 := ⟨oct - 1, by omega⟩
    linarith [geomSum_ge_one g hg m]
  positivity

theorem fbmLoop_value_bound (df rt : Int) (j lac g : Rat) (hg : 0 ≤ g) :
    ∀ (n : Nat) (seed : Int) (x y : Rat) (total amp : Real),
      |fbmLoop 5 df rt j lac g 0 n seed x y total amp|
        ≤ |total| + |amp| * ((geomSum g n : Rat) : Real) := by
  intro n
  induction n with
  | zero =>
    intro seed x y total amp
    simp [fbmLoop, geomSum]
  | succ n ih =>
    intro seed x y total amp
    have hnoise : |applySingle seed x y 5 df rt j| ≤ 1 := by
      rw [applySingle_value, abs_le]
      constructor
      · exact_mod_cast (singleValue_bound seed x y).1
      · exact_mod_cast (singleValue_bound seed x y).2
    have hAW : amp * (lerp 1 (min (applySingle seed x y 5 df rt j + 1) 2 * (1/2))
        ((0 : Rat) : Real) * (g : Real)) = amp * (g : Real) := by
      simp [lerp]
    simp only [fbmLoop]
    rw [hAW]
    refine le_trans (ih (i32 (seed + 1)) (x * lac) (y * lac)
      (total + applySingle seed x y 5 df rt j * amp) (amp * (g : Real))) ?_
    have habs1 : |total + applySingle seed x y 5 df rt j * amp| ≤ |total| + |amp| := by
      calc |total + applySingle seed x y 5 df rt j * amp|
          ≤ |total| + |applySingle seed x y 5 df rt j * amp| := abs_add _ _
        _ = |total| + |applySingle seed x y 5 df rt j| * |amp| := by rw [abs_mul]
        _ ≤ |total| + 1 * |amp| :=
            add_le_add_left (mul_le_mul_of_nonneg_right hnoise (abs_nonneg amp)) _
        _ = |total| + |amp| := by ring
    have hgr : (0 : Real) ≤ (g : Real) := by exact_mod_cast hg
    have habs2 : |amp * (g : Real)| = |amp| * (g : Real) := by
      rw [abs_mul, abs_of_nonneg hgr]
    have hgeom : ((geomSum g (n + 1) : Rat) : Real)
        = 1 + (g : Real) * ((geomSum g n : Rat) : Real) := by
      rw [geomSum]
      push_cast
      ring
    rw [habs2, hgeom]
    have hgeomnn : (0 : Real) ≤ ((geomSum g n : Rat) : Real) := by
      exact_mod_cast geomSum_nonneg g hg n
    nlinarith [habs1, abs_nonneg amp]
/-- C1 (amended): the batch evaluation is NOT normalized into [0,1] - it
returns the raw fractal value (the kernel's own docstring says roughly
[-1,1], and no [0,1] remap exists in the sources).  For the Value noise
family under FBM with weighted strength 0, any octave count >= 1 and any
gain >= 0, with the driver's `fractal_bounding` normalizer, the output lies
in [-1,1]. -/
theorem C1_fbm_value_range (seed : Int) (x y freq lac pps jitter : Rat)
    (gain : Rat) (oct : Nat) (df rt : Int) (hoct : 1 ≤ oct) (hg : 0 ≤ gain) :
    -1 ≤ noise2dElem x y seed freq 5 1 oct lac gain 0 pps
        (calcFractalBounding oct gain) df rt jitter ∧
    noise2dElem x y seed freq 5 1 oct lac gain 0 pps
        (calcFractalBounding oct gain) df rt jitter ≤ 1 := by
  have helem : noise2dElem x y seed freq 5 1 oct lac gain 0 pps
      (calcFractalBounding oct gain) df rt jitter
      = fbmLoop 5 df rt jitter lac gain 0 oct (i32 seed) (x * freq) (y * freq) 0
        ((calcFractalBounding oct gain : Rat) : Real) := by
    norm_num [noise2dElem, fractalNoise]
  have hb := fbmLoop_value_bound df rt jitter lac gain hg oct (i32 seed)
    (x * freq) (y * freq) 0 ((calcFractalBounding oct gain : Rat) : Real)
  have hfbnn : (0 : Real) ≤ ((calcFractalBounding oct gain : Rat) : Real) := by
    exact_mod_cast calcFB_nonneg oct gain hoct hg
  have hone : |((calcFractalBounding oct gain : Rat) : Real)| *
      ((geomSum gain oct : Rat) : Real) = 1 := by
    rw [abs_of_nonneg hfbnn]
    have := calcFB_mul oct gain hoct hg
    exact_mod_cast congrArg (fun q : Rat => (q : Real)) this
  rw [helem]
  rw [abs_zero, zero_add, hone] at hb
  exact abs_le.mp hb

theorem C1_fbm_value_range_witness :
    -1 ≤ noise2dElem 0 0 0 1 5 1 1 2 (1/2) 0 2
        (calcFractalBounding 1 (1/2)) 1 1 1 ∧
    noise2dElem 0 0 0 1 5 1 1 2 (1/2) 0 2
        (calcFractalBounding 1 (1/2)) 1 1 1 ≤ 1 :=
  C1_fbm_value_range 0 0 0 1 2 2 1 (1/2) 1 1 1 (by norm_num) (by norm_num)

/-- C1 counterexample: a batch evaluation whose fractal mode is FBM that
produces a value outside [0,1]: with the Value family, seed 2, frequency 1,
one octave (`fractal_bounding = 1`), the single element of
`noise2d_batch([0],[0])` equals -343038231/536870912, which is negative. -/
theorem C1_range_counterexample :
    noise2dBatch [0] [0] 2 1 5 1 1 2 (1/2) 0 2 1 1 1 1
      = [((-343038231 / 536870912 : Rat) : Real)] ∧
    ((-343038231 / 536870912 : Rat) : Real) < 0 := by
  constructor
  · have h3 : xor32 (mul32 (hash2d 2 0 0) (hash2d 2 0 0))
        (shl32 (mul32 (hash2d 2 0 0) (hash2d 2 0 0)) 19) = -1372152924 := by decide
    have hval : valCoord 2 0 0 = -343038231 / 536870912 := by
      norm_num [valCoord, h3]
    have hm : mul32 0 PRIME_X = 0 := by decide
    have hm2 : mul32 0 PRIME_Y = 0 := by decide
    have hsv : singleValue 2 0 0 = -343038231 / 536870912 := by
      norm_num [singleValue, hm, hm2, hermite, lerp, hval]
    have hseed : i32 2 = 2 := by decide
    norm_num [noise2dBatch, noise2dElem, fractalNoise, fbmLoop, applySingle,
      hseed, hsv, lerp]
  · have h : (-343038231 / 536870912 : Rat) < 0 := by norm_num
    exact_mod_cast h
/-! ## Domain warp kernels (`kernels.py`) -/

/-- `_domain_warp_simplex_single` from `kernels.py` (all constants are
decimal literals there, so this stays rational). -/
def kDomainWarpSimplexSingle (seed : Int) (x y : Rat) (warpAmp : Rat)
    (outgradOnly : Bool) : Rat × Rat :=
  let F2 : Rat := 0.36602540378443864676372317075294
  let t := (x + y) * F2
  let xs := x + t
  let ys := y + t
  let i : Int := ⌊xs⌋
  let j : Int := ⌊ys⌋
  let xi := xs - i
  let yi := ys - j
  let t2 := (xi + yi) * G2
  let x0 := xi - t2
  let y0 := yi - t2
  let ip := mul32 i PRIME_X
  let jp := mul32 j PRIME_Y
  let a := 1/2 - x0 * x0 - y0 * y0
  let v0 : Rat × Rat :=
    if a > 0 then
      let aaaa := (a * a) * (a * a)
      let o := if outgradOnly then gradCoordOut seed ip jp
               else gradCoordDual seed ip jp x0 y0
      (aaaa * o.1, aaaa * o.2)
    else (0, 0)
  let cVal := (2 * (1 - 2 * G2) * (1 / G2 - 2)) * t2 + ((-2 * (1 - 2 * G2) * (1 - 2 * G2)) + a)
  let v2 : Rat × Rat :=
    if cVal > 0 then
      let x2 := x0 + (2 * G2 - 1)
      let y2 := y0 + (2 * G2 - 1)
      let cccc := (cVal * cVal) * (cVal * cVal)
      let o := if outgradOnly then gradCoordOut seed (i32 (ip + PRIME_X)) (i32 (jp + PRIME_Y))
               else gradCoordDual seed (i32 (ip + PRIME_X)) (i32 (jp + PRIME_Y)) x2 y2
      (cccc * o.1, cccc * o.2)
    else (0, 0)
  let v1 : Rat × Rat :=
    if y0 > x0 then
      let x1 := x0 + G2
      let y1 := y0 + (G2 - 1)
      let b := 1/2 - x1 * x1 - y1 * y1
      if b > 0 then
        let bbbb := (b * b) * (b * b)
        let o := if outgradOnly then gradCoordOut seed ip (i32 (jp + PRIME_Y))
                 else gradCoordDual seed ip (i32 (jp + PRIME_Y)) x1 y1
        (bbbb * o.1, bbbb * o.2)
      else (0, 0)
    else
      let x1 := x0 + (G2 - 1)
      let y1 := y0 + G2
      let b := 1/2 - x1 * x1 - y1 * y1
      if b > 0 then
        let bbbb := (b * b) * (b * b)
        let o := if outgradOnly then gradCoordOut seed (i32 (ip + PRIME_X)) jp
                 else gradCoordDual seed (i32 (ip + PRIME_X)) jp x1 y1
        (bbbb * o.1, bbbb * o.2)
      else (0, 0)
  ((v0.1 + v1.1 + v2.1) * warpAmp, (v0.2 + v1.2 + v2.2) * warpAmp)

/-- `_domain_warp_basic_grid_single` from `kernels.py`. -/
def kDomainWarpBasicGridSingle (seed : Int) (x y : Rat) (warpAmp frequency : Rat) :
    Rat × Rat :=
  let xf := x * frequency
  let yf := y * frequency
  let x0 : Int := ⌊xf⌋
  let y0 : Int := ⌊yf⌋
  let xs := hermite (xf - x0)
  let ys := hermite (yf - y0)
  let x0p := mul32 x0 PRIME_X
  let y0p := mul32 y0 PRIME_Y
  let x1p := i32 (x0p + PRIME_X)
  let y1p := i32 (y0p + PRIME_Y)
  let h00 := randIdx (hash2d seed x0p y0p)
  let h10 := randIdx (hash2d seed x1p y0p)
  let lx0x := lerp (randAt h00) (randAt h10) xs
  let ly0x := lerp (randAt (h00 ||| 1)) (randAt (h10 ||| 1)) xs
  let h01 := randIdx (hash2d seed x0p y1p)
  let h11 := randIdx (hash2d seed x1p y1p)
  let lx1x := lerp (randAt h01) (randAt h11) xs
  let ly1x := lerp (randAt (h01 ||| 1)) (randAt (h11 ||| 1)) xs
  (lerp lx0x lx1x ys * warpAmp, lerp ly0x ly1x ys * warpAmp)

/-- One-octave delta selection of `domain_warp_2d_batch` (shared by all
three fractal branches). -/
def kDWDelta (warpType : Int) (seed : Int) (x y : Rat) (amp freq : Rat) : Rat × Rat :=
  if warpType = 2 then kDomainWarpBasicGridSingle seed x y amp freq
  else if warpType = 1 then kDomainWarpSimplexSingle seed (x * freq) (y * freq) (amp * 16) true
  else kDomainWarpSimplexSingle seed (x * freq) (y * freq)
    (amp * 38.283687591552734375) false

/-- The PROGRESSIVE octave loop of `domain_warp_2d_batch` in `kernels.py`:
note that the delta is added to the running coordinate as-is. -/
def kDWProgLoop (warpType : Int) (lac gain : Rat) :
    Nat → Int → Rat → Rat → Rat → Rat → Rat × Rat
  | 0, _, wx, wy, _, _ => (wx, wy)
  | n + 1, seed32, wx, wy, amp, freq =>
    let d := kDWDelta warpType seed32 wx wy amp freq
    kDWProgLoop warpType lac gain n (i32 (seed32 + 1)) (wx + d.1) (wy + d.2)
      (amp * gain) (freq * lac)

/-- The INDEPENDENT octave loop of `domain_warp_2d_batch` in `kernels.py`. -/
def kDWIndepLoop (warpType : Int) (xi yi : Rat) (lac gain : Rat) :
    Nat → Int → Rat → Rat → Rat → Rat → Rat × Rat
  | 0, _, tdx, tdy, _, _ => (tdx, tdy)
  | n + 1, seed32, tdx, tdy, amp, freq =>
    let d := kDWDelta warpType seed32 xi yi amp freq
    kDWIndepLoop warpType xi yi lac gain n (i32 (seed32 + 1)) (tdx + d.1) (tdy + d.2)
      (amp * gain) (freq * lac)

/-- Per-element work of `domain_warp_2d_batch` (`kernels.py`). -/
def kDomainWarpElem (xi yi : Rat) (seed : Int) (warpType : Int)
    (amplitude frequency : Rat) (fractalType : Int) (octaves : Nat)
    (lac gain fb : Rat) : Rat × Rat :=
  if fractalType = 0 then
    let d :=
      if warpType = 2 then
        kDomainWarpBasicGridSingle (i32 seed) xi yi (amplitude * fb) frequency
      else if warpType = 1 then
        kDomainWarpSimplexSingle (i32 seed) (xi * frequency) (yi * frequency)
          (amplitude * fb * 16) true
      else
        kDomainWarpSimplexSingle (i32 seed) (xi * frequency) (yi * frequency)
          (amplitude * fb * 38.283687591552734375) false
    (xi + d.1, yi + d.2)
  else if fractalType = 1 then
    kDWProgLoop warpType lac gain octaves (i32 seed) xi yi (amplitude * fb) frequency
  else
    let d := kDWIndepLoop warpType xi yi lac gain octaves (i32 seed) 0 0
      (amplitude * fb) frequency
    (xi + d.1, yi + d.2)
/-! ## Domain warp module (`domain_warp.py`) -/

/-- `ROTATE_2D_COS` from `domain_warp.py`. -/
def ROTATE2D_COS : Rat := 0.6

/-- `ROTATE_2D_SIN` from `domain_warp.py`. -/
def ROTATE2D_SIN : Rat := 0.8

/-- `SIMPLEX_GRADIENTS_2D` from `domain_warp.py` (8 gradient pairs). -/
def SIMPLEX_GRADIENTS_2D : List (Rat × Rat) :=
  [(1, 0), (-1, 0), (0, 1), (0, -1),
   (0.707107, 0.707107), (-0.707107, 0.707107),
   (0.707107, -0.707107), (-0.707107, -0.707107)]

/-- Read of `SIMPLEX_GRADIENTS_2D[g]`. -/
def simplexGradAt (g : Nat) : Rat × Rat := SIMPLEX_GRADIENTS_2D.getD g (0, 0)

/-- Permutation-table read `perm[n]` at a nonnegative machine index. -/
def permAtN (perm : List Int) (n : Nat) : Int := perm.getD n 0

/-- Permutation-table read `perm[i]` at an integer index. -/
def permAtI (perm : List Int) (i : Int) : Int := perm.getD i.toNat 0

/-- Python `i & 255` (two's complement) as a table index. -/
def mask255 (i : Int) : Nat := (i % 256).toNat

/-- `_simplex_warp_single` from `domain_warp.py`; its `F2`/`G2` are computed
with `np.sqrt(3.0)`, hence the real-valued embedding. -/
noncomputable def simplexWarpSingle (x y : Real) (perm : List Int)
    (amplitude : Real) : Real × Real :=
  let F2 : Real := (1/2) * (Real.sqrt 3 - 1)
  let G2 : Real := (3 - Real.sqrt 3) / 6
  let s := (x + y) * F2
  let i : Int := ⌊x + s⌋
  let j : Int := ⌊y + s⌋
  let t := ((i : Real) + (j : Real)) * G2
  let X0 := (i : Real) - t
  let Y0 := (j : Real) - t
  let x0 := x - X0
  let y0 := y - Y0
  let ij1 : Nat × Nat := if x0 > y0 then (1, 0) else (0, 1)
  let x1 := x0 - (ij1.1 : Real) + G2
  let y1 := y0 - (ij1.2 : Real) + G2
  let x2 := x0 - 1 + 2 * G2
  let y2 := y0 - 1 + 2 * G2
  let ii := mask255 i
  let jj := mask255 j
  let gi0 := (permAtI perm ((ii : Int) + permAtN perm jj) % 8).toNat
  let gi1 := (permAtI perm ((ii : Int) + (ij1.1 : Int) + permAtN perm (jj + ij1.2)) % 8).toNat
  let gi2 := (permAtI perm ((ii : Int) + 1 + permAtN perm (jj + 1)) % 8).toNat
  let t0 := 1/2 - x0 * x0 - y0 * y0
  let w0 : Real × Real :=
    if t0 > 0 then
      let t0sq := t0 * t0
      let t02 := t0sq * t0sq
      (t02 * ((simplexGradAt gi0).1 : Real), t02 * ((simplexGradAt gi0).2 : Real))
    else (0, 0)
  let t1 := 1/2 - x1 * x1 - y1 * y1
  let w1 : Real × Real :=
    if t1 > 0 then
      let t1sq := t1 * t1
      let t12 := t1sq * t1sq
      (t12 * ((simplexGradAt gi1).1 : Real), t12 * ((simplexGradAt gi1).2 : Real))
    else (0, 0)
  let t2 := 1/2 - x2 * x2 - y2 * y2
  let w2 : Real × Real :=
    if t2 > 0 then
      let t2sq := t2 * t2
      let t22 := t2sq * t2sq
      (t22 * ((simplexGradAt gi2).1 : Real), t22 * ((simplexGradAt gi2).2 : Real))
    else (0, 0)
  let scale : Real := 38.283687591552734375 * amplitude
  ((w0.1 + w1.1 + w2.1) * scale, (w0.2 + w1.2 + w2.2) * scale)

/-- `hash_to_grad` inside `_basic_grid_warp_single`. -/
def hashToGrad (h : Int) : Rat × Rat :=
  (((h % 16 : Int) : Rat) / 7.5 - 1, ((Int.ediv h 16 % 16 : Int) : Rat) / 7.5 - 1)

/-- `_basic_grid_warp_single` from `domain_warp.py` (purely rational). -/
def basicGridWarpSingle (x y : Rat) (perm : List Int) (amplitude : Rat) :
    Rat × Rat :=
  let fx : Int := ⌊x⌋
  let fy : Int := ⌊y⌋
  let xf := x - fx
  let yf := y - fy
  let ix := mask255 fx
  let iy := mask255 fy
  let ix1 := (ix + 1) % 256
  let iy1 := (iy + 1) % 256
  let u := xf * xf * xf * (xf * (xf * 6 - 15) + 10)
  let v := yf * yf * yf * (yf * (yf * 6 - 15) + 10)
  let g00 := hashToGrad (permAtI perm ((ix : Int) + permAtN perm iy))
  let g10 := hashToGrad (permAtI perm ((ix1 : Int) + permAtN perm iy))
  let g01 := hashToGrad (permAtI perm ((ix : Int) + permAtN perm iy1))
  let g11 := hashToGrad (permAtI perm ((ix1 : Int) + permAtN perm iy1))
  let gx0 := g00.1 + u * (g10.1 - g00.1)
  let gx1 := g01.1 + u * (g11.1 - g01.1)
  let gy0 := g00.2 + u * (g10.2 - g00.2)
  let gy1 := g01.2 + u * (g11.2 - g01.2)
  ((gx0 + v * (gx1 - gx0)) * amplitude, (gy0 + v * (gy1 - gy0)) * amplitude)

/-- Per-element loop of `domain_warp_simplex_fractal_progressive_2d`: each
octave warps the already-warped coordinate, rotating the delta by
`(ROTATE_2D_COS, ROTATE_2D_SIN)` before adding. -/
noncomputable def dwProgSimplexLoop (perm : List Int) (lac gain : Real) :
    Nat → Real → Real → Real → Real → Real × Real
  | 0, wx, wy, _, _ => (wx, wy)
  | n + 1, wx, wy, freq, amp =>
    let d := simplexWarpSingle (wx * freq) (wy * freq) perm amp
    dwProgSimplexLoop perm lac gain n
      (wx + (d.1 * ((ROTATE2D_COS : Rat) : Real) - d.2 * ((ROTATE2D_SIN : Rat) : Real)))
      (wy + (d.1 * ((ROTATE2D_SIN : Rat) : Real) + d.2 * ((ROTATE2D_COS : Rat) : Real)))
      (freq * lac) (amp * gain)

/-- Per-element loop of `domain_warp_basic_grid_fractal_progressive_2d`. -/
def dwProgBasicLoop (perm : List Int) (lac gain : Rat) :
    Nat → Rat → Rat → Rat → Rat → Rat × Rat
  | 0, wx, wy, _, _ => (wx, wy)
  | n + 1, wx, wy, freq, amp =>
    let d := basicGridWarpSingle (wx * freq) (wy * freq) perm amp
    dwProgBasicLoop perm lac gain n
      (wx + (d.1 * ROTATE2D_COS - d.2 * ROTATE2D_SIN))
      (wy + (d.1 * ROTATE2D_SIN + d.2 * ROTATE2D_COS))
      (freq * lac) (amp * gain)
/-- The rotation matrix application described by the spec (cos = 0.6,
sin = 0.8), rational version. -/
def rotDelta (dx dy : Rat) : Rat × Rat :=
  (dx * 0.6 - dy * 0.8, dx * 0.8 + dy * 0.6)

/-- The spec's rotation matrix application, real version. -/
noncomputable def rotDeltaR (dx dy : Real) : Real × Real :=
  (dx * 0.6 - dy * 0.8, dx * 0.8 + dy * 0.6)

/-- C6 (amended): the `DomainWarp2D` progressive implementations in
`domain_warp.py` (simplex and basic-grid) rotate each per-octave delta by
the fixed matrix with cos 0.6 / sin 0.8 before adding it to the
already-warped running coordinate; the separate `domain_warp_2d_batch`
progressive branch in `kernels.py` adds its per-octave delta without any
rotation. -/
theorem C6_progressive_rotation :
    (∀ (perm : List Int) (lac gain : Real) (n : Nat) (wx wy freq amp : Real),
      dwProgSimplexLoop perm lac gain (n + 1) wx wy freq amp =
        dwProgSimplexLoop perm lac gain n
          (wx + (rotDeltaR (simplexWarpSingle (wx * freq) (wy * freq) perm amp).1
                 (simplexWarpSingle (wx * freq) (wy * freq) perm amp).2).1)
          (wy + (rotDeltaR (simplexWarpSingle (wx * freq) (wy * freq) perm amp).1
                 (simplexWarpSingle (wx * freq) (wy * freq) perm amp).2).2)
          (freq * lac) (amp * gain)) ∧
    (∀ (perm : List Int) (lac gain : Rat) (n : Nat) (wx wy freq amp : Rat),
      dwProgBasicLoop perm lac gain (n + 1) wx wy freq amp =
        dwProgBasicLoop perm lac gain n
          (wx + (rotDelta (basicGridWarpSingle (wx * freq) (wy * freq) perm amp).1
                 (basicGridWarpSingle (wx * freq) (wy * freq) perm amp).2).1)
          (wy + (rotDelta (basicGridWarpSingle (wx * freq) (wy * freq) perm amp).1
                 (basicGridWarpSingle (wx * freq) (wy * freq) perm amp).2).2)
          (freq * lac) (amp * gain)) ∧
    (∀ (warpType : Int) (lac gain : Rat) (n : Nat) (seed : Int) (wx wy amp freq : Rat),
      kDWProgLoop warpType lac gain (n + 1) seed wx wy amp freq =
        kDWProgLoop warpType lac gain n (i32 (seed + 1))
          (wx + (kDWDelta warpType seed wx wy amp freq).1)
          (wy + (kDWDelta warpType seed wx wy amp freq).2)
          (amp * gain) (freq * lac)) := by
  refine ⟨?_, ?_, ?_⟩
  · intro perm lac gain n wx wy freq amp
    simp only [dwProgSimplexLoop, rotDeltaR, ROTATE2D_COS, ROTATE2D_SIN]
    norm_num
  · intro perm lac gain n wx wy freq amp
    simp only [dwProgBasicLoop, rotDelta, ROTATE2D_COS, ROTATE2D_SIN]
  · intro warpType lac gain n seed wx wy amp freq
    rfl

/-- C6 counterexample: in `kernels.py`'s `domain_warp_2d_batch`, Progressive
mode with the BasicGrid kernel at seed 0, point (0,0), amplitude 1,
frequency 1, one octave produces the raw (unrotated) delta
(-0.2700222198, -0.9628540911); rotating that delta as the claim requires
would give a different warped point. -/
theorem C6_rotation_counterexample :
    kDomainWarpElem 0 0 0 2 1 1 1 1 2 (1/2) 1 = (-0.2700222198, -0.9628540911) ∧
    kDomainWarpElem 0 0 0 2 1 1 1 1 2 (1/2) 1
      ≠ (0 + (rotDelta (-0.2700222198) (-0.9628540911)).1,
         0 + (rotDelta (-0.2700222198) (-0.9628540911)).2) := by
  have hm : mul32 0 PRIME_X = 0 := by decide
  have hm2 : mul32 0 PRIME_Y = 0 := by decide
  have hh : hash2d 0 0 0 = 0 := by decide
  have hi : randIdx 0 = 0 := by decide
  have ho : (0 : Nat) ||| 1 = 1 := by decide
  have hr0 : randAt 0 = -0.2700222198 := rfl
  have hr1 : randAt 1 = -0.9628540911 := rfl
  have hs : i32 0 = 0 := by decide
  have heval : kDomainWarpElem 0 0 0 2 1 1 1 1 2 (1/2) 1
      = (-0.2700222198, -0.9628540911) := by
    norm_num [kDomainWarpElem, kDWProgLoop, kDWDelta, kDomainWarpBasicGridSingle,
      hermite, lerp, hm, hm2, hh, hi, ho, hr0, hr1, hs]
  refine ⟨heval, ?_⟩
  rw [heval]
  simp only [rotDelta, Prod.mk.injEq, not_and]
  intro h1
  norm_num at h1
/-! ## C7: `generate_region` (`noise2d.py`) -/

/-- `np.linspace(start, stop, num)`: rejects a negative sample count with a
`ValueError`, returns the empty array for zero, the left endpoint for one,
and the inclusive evenly spaced grid otherwise. -/
def linspace (a b : Rat) (num : Int) : Except String (List Rat) :=
  if num < 0 then Except.error "ValueError: number of samples must be non-negative"
  else Except.ok ((List.range num.toNat).map fun i : Nat =>
    if num = 1 then a else a + (i : Rat) * (b - a) / ((num : Rat) - 1))

/-- `NoiseGenerator2D.generate_region`: dimension check, per-axis linspace,
`meshgrid(indexing='ij')` flattened row-major, optional domain warp, then
the delegate's vectorized evaluation.  The delegate (`gvv`) and the warp are
parameters because the concrete per-family generator classes are loaded
from modules that are not part of the sources.  Returns the output shape
and the flat result; note there is no width/height validation of its own
and no `InvalidRegion` error anywhere in the sources. -/
def generateRegion (region : List (Rat × Rat × Int)) (dwEnabled : Bool)
    (warp : List Rat → List Rat → List Rat × List Rat)
    (gvv : List Rat → List Rat → List Real) :
    Except String ((Nat × Nat) × List Real) :=
  if region.length ≠ 2 then Except.error "ValueError: region must have 2 dimensions"
  else
    match region with
    | [rx, ry] =>
      match linspace rx.1 rx.2.1 rx.2.2, linspace ry.1 ry.2.1 ry.2.2 with
      | Except.ok xs, Except.ok ys =>
        let pairs := xs.flatMap fun xv => ys.map fun yv => (xv, yv)
        let xflat := pairs.map Prod.fst
        let yflat := pairs.map Prod.snd
        let w := if dwEnabled then warp xflat yflat else (xflat, yflat)
        Except.ok ((xs.length, ys.length), gvv w.1 w.2)
      | Except.error e, _ => Except.error e
      | _, Except.error e => Except.error e
    | _ => Except.error "ValueError: region must have 2 dimensions"

/-- Modelled from the spec: the vectorized evaluation the façade delegates
to ("delegates to the Batch Driver") - the concrete `FastNoise2D` wrapper
module is imported by the package but absent from the sources, so the
delegate is wired directly to `noise2d_batch`. -/
noncomputable def kernelGvv (seed : Int) (freq : Rat) (nt ft : Int)
    (oct : Nat) (lac gain ws pps fb : Rat) (df rt : Int) (jit : Rat) :
    List Rat → List Rat → List Real :=
  fun xs ys => noise2dBatch xs ys seed freq nt ft oct lac gain ws pps fb df rt jit

/-- C7 counterexample: a region request with width 0 (and height 5) does
not produce any error - `generate_region` returns an empty result after
evaluating no points, whereas the claim requires an `InvalidRegion` error
for every non-positive width/height. -/
theorem C7_invalid_region_counterexample :
    generateRegion [(0, 1, 0), (0, 1, 5)] false (fun xs ys => (xs, ys))
        (kernelGvv 0 1 3 1 1 2 (1/2) 0 2 1 1 1 1)
      = Except.ok ((0, 5), []) := by
  rfl

/-- C7 (amended): `generate_region` performs no width/height validation and
no `InvalidRegion` error exists in the sources: a negative point count
fails with numpy's `ValueError` from `linspace`, while a zero point count
yields an empty output with no noise evaluation (the delegate receives
empty coordinate arrays). -/
theorem C7_region_validation (a b c d : Rat) (m h : Int)
    (warp : List Rat → List Rat → List Rat × List Rat)
    (gvv : List Rat → List Rat → List Real) :
    ((m < 0 ∨ h < 0) →
      generateRegion [(a, b, m), (c, d, h)] false warp gvv
        = Except.error "ValueError: number of samples must be non-negative") ∧
    (m = 0 → 0 ≤ h →
      generateRegion [(a, b, m), (c, d, h)] false warp gvv
        = Except.ok ((0, h.toNat), gvv [] [])) ∧
    (h = 0 → 0 ≤ m →
      generateRegion [(a, b, m), (c, d, h)] false warp gvv
        = Except.ok ((m.toNat, 0), gvv [] [])) := by
  have hconst : ∀ (l : List Rat), (l.flatMap fun _ => ([] : List (Rat × Rat))) = [] := by
    intro l
    induction l with
    | nil => rfl
    | cons xh xt ih => simpa [List.flatMap] using ih
  refine ⟨?_, ?_, ?_⟩
  · intro hmh
    rcases hmh with hm | hh
    · simp [generateRegion, linspace, hm]
    · rcases lt_or_ge m 0 with hm | hm
      · simp [generateRegion, linspace, hm]
      · simp [generateRegion, linspace, hh, not_lt_of_ge hm]
  · intro hm hh
    subst hm
    have hx : linspace a b 0 = Except.ok [] := by simp [linspace]
    have hy : linspace c d h = Except.ok ((List.range h.toNat).map fun i : Nat =>
        if h = 1 then c else c + (i : Rat) * (d - c) / ((h : Rat) - 1)) := by
      simp [linspace, not_lt_of_ge hh]
    simp [generateRegion, hx, hy]
  · intro hh hm
    subst hh
    have hy : linspace c d 0 = Except.ok [] := by simp [linspace]
    have hx : linspace a b m = Except.ok ((List.range m.toNat).map fun i : Nat =>
        if m = 1 then a else a + (i : Rat) * (b - a) / ((m : Rat) - 1)) := by
      simp [linspace, not_lt_of_ge hm]
    simp [generateRegion, hx, hy, hconst]
theorem C7_region_validation_witness :
    generateRegion [(0, 1, -1), (0, 1, 5)] false (fun xs ys => (xs, ys))
        (kernelGvv 0 1 3 1 1 2 (1/2) 0 2 1 1 1 1)
      = Except.error "ValueError: number of samples must be non-negative" ∧
    generateRegion [(0, 1, 5), (0, 1, 0)] false (fun xs ys => (xs, ys))
        (kernelGvv 0 1 3 1 1 2 (1/2) 0 2 1 1 1 1)
      = Except.ok ((5, 0), kernelGvv 0 1 3 1 1 2 (1/2) 0 2 1 1 1 1 [] []) :=
  ⟨(C7_region_validation 0 1 0 1 (-1) 5 (fun xs ys => (xs, ys))
      (kernelGvv 0 1 3 1 1 2 (1/2) 0 2 1 1 1 1)).1 (Or.inl (by norm_num)),
   (C7_region_validation 0 1 0 1 5 0 (fun xs ys => (xs, ys))
      (kernelGvv 0 1 3 1 1 2 (1/2) 0 2 1 1 1 1)).2.2 rfl (by norm_num)⟩

/-! ## C8: configuration round-trip (`noise2d.py`, `domain_warp.py`, `enums.py`) -/

/-- `NoiseType` from `enums.py` (values match FastNoiseLite). -/
inductive NoiseTypeE
  | openSimplex2
  | openSimplex2S
  | cellular
  | perlin
  | valueCubic
  | value
deriving DecidableEq

/-- Integer value of each `NoiseType` member (`enums.py`). -/
def NoiseTypeE.val : NoiseTypeE → Int
  | .openSimplex2 => 0
  | .openSimplex2S => 1
  | .cellular => 2
  | .perlin => 3
  | .valueCubic => 4
  | .value => 5

/-- The members of `NoiseType` in declaration order. -/
def NoiseTypeE.members : List NoiseTypeE :=
  [.openSimplex2, .openSimplex2S, .cellular, .perlin, .valueCubic, .value]

/-- `_enum_value_to_name` for `NoiseType`: first member whose value matches,
falling back to the first member. -/
def NoiseTypeE.ofValOrFirst (v : Int) : NoiseTypeE :=
  (NoiseTypeE.members.find? fun m => m.val == v).getD .openSimplex2

/-- `FractalType` from `enums.py`. -/
inductive FractalTypeE
  | none
  | fbm
  | ridged
  | pingPong
deriving DecidableEq

def FractalTypeE.val : FractalTypeE → Int
  | .none => 0
  | .fbm => 1
  | .ridged => 2
  | .pingPong => 3

def FractalTypeE.members : List FractalTypeE := [.none, .fbm, .ridged, .pingPong]

def FractalTypeE.ofValOrFirst (v : Int) : FractalTypeE :=
  (FractalTypeE.members.find? fun m => m.val == v).getD .none

/-- `CellularDistanceFunction` from `enums.py`. -/
inductive CellDistE
  | euclidean
  | euclideanSquared
  | manhattan
  | hybrid
deriving DecidableEq

def CellDistE.val : CellDistE → Int
  | .euclidean => 0
  | .euclideanSquared => 1
  | .manhattan => 2
  | .hybrid => 3

def CellDistE.members : List CellDistE :=
  [.euclidean, .euclideanSquared, .manhattan, .hybrid]

def CellDistE.ofValOrFirst (v : Int) : CellDistE :=
  (CellDistE.members.find? fun m => m.val == v).getD .euclidean

/-- `CellularReturnType` from `enums.py`. -/
inductive CellRetE
  | cellValue
  | distance
  | distance2
  | distance2Add
  | distance2Sub
  | distance2Mul
  | distance2Div
deriving DecidableEq

def CellRetE.val : CellRetE → Int
  | .cellValue => 0
  | .distance => 1
  | .distance2 => 2
  | .distance2Add => 3
  | .distance2Sub => 4
  | .distance2Mul => 5
  | .distance2Div => 6

def CellRetE.members : List CellRetE :=
  [.cellValue, .distance, .distance2, .distance2Add, .distance2Sub,
   .distance2Mul, .distance2Div]

def CellRetE.ofValOrFirst (v : Int) : CellRetE :=
  (CellRetE.members.find? fun m => m.val == v).getD .cellValue

/-- `DomainWarpType` from `enums.py`. -/
inductive DWTypeE
  | openSimplex2
  | openSimplex2Reduced
  | basicGrid
deriving DecidableEq

def DWTypeE.val : DWTypeE → Int
  | .openSimplex2 => 0
  | .openSimplex2Reduced => 1
  | .basicGrid => 2

/-- Python `DomainWarpType(value)`: strict lookup by value. -/
def DWTypeE.ofVal? (v : Int) : Option DWTypeE :=
  if v = 0 then some .openSimplex2
  else if v = 1 then some .openSimplex2Reduced
  else if v = 2 then some .basicGrid
  else none

/-- `DomainWarpFractalType` from `enums.py`. -/
inductive DWFractalE
  | none
  | progressive
  | independent
deriving DecidableEq

def DWFractalE.val : DWFractalE → Int
  | .none => 0
  | .progressive => 1
  | .independent => 2

def DWFractalE.ofVal? (v : Int) : Option DWFractalE :=
  if v = 0 then some .none
  else if v = 1 then some .progressive
  else if v = 2 then some .independent
  else none

/-- The state of a constructed `DomainWarp2D` (`domain_warp.py`): the
constructor clamps the octave count into `[1, 9]`. -/
structure DomainWarpState where
  enabled : Bool
  warpType : DWTypeE
  amplitude : Rat
  frequency : Rat
  fractalType : DWFractalE
  octaves : Int
  lacunarity : Rat
  gain : Rat
  seed : Int
deriving DecidableEq

/-- The plain record produced by `DomainWarp2D.to_dict` (enums as ints). -/
structure DWDict where
  enabled : Int
  warpType : Int
  amplitude : Rat
  frequency : Rat
  fractalType : Int
  gain : Rat
  lacunarity : Rat
  octaves : Int
deriving DecidableEq

/-- `DomainWarp2D.to_dict`. -/
def DomainWarpState.toDict (s : DomainWarpState) : DWDict :=
  ⟨if s.enabled then 1 else 0, s.warpType.val, s.amplitude, s.frequency,
   s.fractalType.val, s.gain, s.lacunarity, s.octaves⟩

/-- `DomainWarp2D.from_dict` followed by `__init__` (which clamps the
octave count with `max(1, min(octaves, 9))`); fails if an enum integer is
out of range, mirroring Python's `ValueError` from the enum constructor. -/
def dwFromDict (d : DWDict) (seed : Int) : Option DomainWarpState :=
  match DWTypeE.ofVal? d.warpType, DWFractalE.ofVal? d.fractalType with
  | some wt, some ft =>
    some ⟨d.enabled != 0, wt, d.amplitude, d.frequency, ft,
      max 1 (min d.octaves 9), d.lacunarity, d.gain, seed⟩
  | _, _ => none
/-- The configuration state of a constructed `NoiseGenerator2D`: the
`_config` fields the claims name, plus the embedded `DomainWarp2D`. -/
structure NoiseGenState where
  noiseType : NoiseTypeE
  seed : Int
  frequency : Rat
  offsetX : Rat
  offsetY : Rat
  fractalType : FractalTypeE
  octaves : Int
  lacunarity : Rat
  persistence : Rat
  weightedStrength : Rat
  pingPongStrength : Rat
  cellularDistanceFunction : CellDistE
  cellularReturnType : CellRetE
  cellularJitter : Rat
  domainWarp : DomainWarpState
deriving DecidableEq

/-- The plain record produced by `NoiseGenerator2D.to_dict` (a version tag,
enum fields as integers, and the domain-warp fields). -/
structure NoiseDict where
  version : String
  noiseType : Int
  seed : Int
  frequency : Rat
  offsetX : Rat
  offsetY : Rat
  fractalType : Int
  octaves : Int
  lacunarity : Rat
  persistence : Rat
  weightedStrength : Rat
  pingPongStrength : Rat
  cellularDistanceFunction : Int
  cellularReturnType : Int
  cellularJitter : Rat
  dw : DWDict
deriving DecidableEq

/-- `NoiseGenerator2D.to_dict`. -/
def NoiseGenState.toDict (s : NoiseGenState) : NoiseDict :=
  ⟨"1.0", s.noiseType.val, s.seed, s.frequency, s.offsetX, s.offsetY,
   s.fractalType.val, s.octaves, s.lacunarity, s.persistence,
   s.weightedStrength, s.pingPongStrength, s.cellularDistanceFunction.val,
   s.cellularReturnType.val, s.cellularJitter, s.domainWarp.toDict⟩

/-- `_create_generator_from_config` (`noise2d.py` lines 139-177), reduced
to its success/failure behaviour.  The dispatch compares the noise type
against `NoiseType.PERLIN` first; when that comparison fails it evaluates
`NoiseType.SIMPLEX`, a member that does not exist in the staged
`enums.py` (whose members are OPEN_SIMPLEX_2, OPEN_SIMPLEX_2S, CELLULAR,
PERLIN, VALUE_CUBIC, VALUE) - so every family other than PERLIN raises
`AttributeError` here before any generator is produced.  Modelled from the
spec for the PERLIN branch only: `from .perlin2d import PerlinNoise2D`
loads a per-family module that is not part of the sources, and the spec's
facade constructs an evaluator from the parameter record, so that import
is modelled as succeeding. -/
def createGeneratorFromConfig (nt : NoiseTypeE) : Except String Unit :=
  if nt = .perlin then Except.ok ()
  else Except.error "AttributeError: NoiseType has no attribute SIMPLEX"

/-- `NoiseGenerator2D.from_dict`: the four enum integers go through
`_enum_value_to_name` (first matching member, first member as fallback),
then `cls(config=...)` runs `__init__`, which first creates the per-family
generator via `_create_generator_from_config` (the step that raises
`AttributeError` for every non-PERLIN family) and then rebuilds the domain
warp via `DomainWarp2D.from_dict` with `seed=config["seed"]`. -/
def noiseFromDict (d : NoiseDict) : Except String NoiseGenState :=
  match createGeneratorFromConfig (NoiseTypeE.ofValOrFirst d.noiseType) with
  | Except.error e => Except.error e
  | Except.ok _ =>
    match dwFromDict d.dw d.seed with
    | some dw =>
      Except.ok ⟨NoiseTypeE.ofValOrFirst d.noiseType, d.seed, d.frequency,
        d.offsetX, d.offsetY, FractalTypeE.ofValOrFirst d.fractalType,
        d.octaves, d.lacunarity, d.persistence, d.weightedStrength,
        d.pingPongStrength, CellDistE.ofValOrFirst d.cellularDistanceFunction,
        CellRetE.ofValOrFirst d.cellularReturnType, d.cellularJitter, dw⟩
    | none => Except.error "ValueError: not a valid domain warp enum value"

/-- A configuration is valid when it can arise from construction: the
domain-warp octave count is already clamped into `[1, 9]` and the
domain-warp seed is the configuration seed (both are established by
`NoiseGenerator2D.__init__`). -/
def NoiseGenState.Valid (s : NoiseGenState) : Prop :=
  s.domainWarp.octaves = max 1 (min s.domainWarp.octaves 9) ∧
  s.domainWarp.seed = s.seed

/-- Modelled from the spec: the façade's point evaluation "delegates to the
Batch Driver" with the configured parameters (the concrete per-family
generator wrapper modules are imported by the package but absent from the
sources); used here only to express that equal configurations evaluate
equally. -/
noncomputable def evalState (s : NoiseGenState) (x y : Rat) : Real :=
  noise2dElem (x + s.offsetX) (y + s.offsetY) s.seed s.frequency
    s.noiseType.val s.fractalType.val s.octaves.toNat s.lacunarity
    s.persistence s.weightedStrength s.pingPongStrength
    (calcFractalBounding s.octaves.toNat s.persistence)
    s.cellularDistanceFunction.val s.cellularReturnType.val s.cellularJitter

theorem ntE_ofVal_val (e : NoiseTypeE) : NoiseTypeE.ofValOrFirst e.val = e := by
  cases e <;> rfl

theorem ftE_ofVal_val (e : FractalTypeE) : FractalTypeE.ofValOrFirst e.val = e := by
  cases e <;> rfl

theorem cdE_ofVal_val (e : CellDistE) : CellDistE.ofValOrFirst e.val = e := by
  cases e <;> rfl

theorem crE_ofVal_val (e : CellRetE) : CellRetE.ofValOrFirst e.val = e := by
  cases e <;> rfl

theorem dwtE_ofVal_val (e : DWTypeE) : DWTypeE.ofVal? e.val = some e := by
  cases e <;> rfl

theorem dwfE_ofVal_val (e : DWFractalE) : DWFractalE.ofVal? e.val = some e := by
  cases e <;> rfl

theorem dw_round_trip (dw : DomainWarpState) (sd : Int)
    (hoct : dw.octaves = max 1 (min dw.octaves 9)) (hsd : dw.seed = sd) :
    dwFromDict dw.toDict sd = some dw := by
  cases dw with
  | mk en wt am fq ft oc la ga dsd =>
    simp only [DomainWarpState.toDict, dwFromDict, dwtE_ofVal_val, dwfE_ofVal_val]
    simp only at hoct hsd
    subst hsd
    rw [← hoct]
    cases en <;> simp

/-- C8 counterexample: `from_dict(to_record(cfg))` does not produce a
configuration for a Value-family config - the staged
`_create_generator_from_config` dereferences the nonexistent
`NoiseType.SIMPLEX` as soon as the family is not PERLIN, raising
`AttributeError` instead of constructing anything. -/
theorem C8_round_trip_counterexample :
    noiseFromDict (NoiseGenState.toDict
      ⟨NoiseTypeE.value, 0, 0.01, 0, 0, FractalTypeE.fbm, 5, 2, 1/2, 0, 2,
       CellDistE.euclideanSquared, CellRetE.distance, 1,
       ⟨false, DWTypeE.openSimplex2, 30, 0.05, DWFractalE.none, 5, 2, 1/2, 0⟩⟩)
      = Except.error "AttributeError: NoiseType has no attribute SIMPLEX" := by
  rfl

/-- C8 (amended): for a constructible configuration of the PERLIN family
(the only family whose generator dispatch does not fault; its absent
`perlin2d` module import is modelled per the spec as succeeding),
`from_dict(to_dict(cfg))` restores every field - noise family, fractal
mode, seed, frequency, octaves, lacunarity, persistence, weighted
strength, ping-pong strength, the three cellular fields and all
domain-warp fields, with enum fields travelling as the FastNoiseLite
integer codes of `enums.py` - so the round-tripped configuration
evaluates identically at every point; for every other family
`from_dict(to_dict(cfg))` raises `AttributeError` from
`_create_generator_from_config` before producing a configuration,
because that dispatch evaluates the nonexistent `NoiseType.SIMPLEX`. -/
theorem C8_round_trip (s : NoiseGenState) (hv : s.Valid) :
    (s.noiseType = NoiseTypeE.perlin →
      noiseFromDict s.toDict = Except.ok s ∧
      ∀ x y : Rat, Except.map (fun s2 => evalState s2 x y) (noiseFromDict s.toDict)
        = Except.ok (evalState s x y)) ∧
    (s.noiseType ≠ NoiseTypeE.perlin →
      noiseFromDict s.toDict
        = Except.error "AttributeError: NoiseType has no attribute SIMPLEX") := by
  obtain ⟨hoct, hsd⟩ := hv
  constructor
  · intro hp
    have h1 : noiseFromDict s.toDict = Except.ok s := by
      cases s with
      | mk nt sd fr ox oy ft oc la pe ws pp cdf crt cj dw =>
        simp only at hoct hsd hp
        subst hp
        simp only [NoiseGenState.toDict, noiseFromDict, createGeneratorFromConfig,
          dw_round_trip dw sd hoct hsd, ntE_ofVal_val, ftE_ofVal_val,
          cdE_ofVal_val, crE_ofVal_val]
        rfl
    refine ⟨h1, ?_⟩
    intro x y
    rw [h1]
    rfl
  · intro hp
    cases s with
    | mk nt sd fr ox oy ft oc la pe ws pp cdf crt cj dw =>
      simp only at hp
      simp only [NoiseGenState.toDict, noiseFromDict, ntE_ofVal_val,
        createGeneratorFromConfig, if_neg hp]

theorem C8_round_trip_witness :
    noiseFromDict (NoiseGenState.toDict
      ⟨NoiseTypeE.perlin, 42, 0.05, 0, 0, FractalTypeE.fbm, 4, 2, 1/2, 0, 2,
       CellDistE.euclideanSquared, CellRetE.distance, 1,
       ⟨false, DWTypeE.openSimplex2, 30, 0.05, DWFractalE.none, 5, 2, 1/2, 42⟩⟩)
      = Except.ok
      ⟨NoiseTypeE.perlin, 42, 0.05, 0, 0, FractalTypeE.fbm, 4, 2, 1/2, 0, 2,
       CellDistE.euclideanSquared, CellRetE.distance, 1,
       ⟨false, DWTypeE.openSimplex2, 30, 0.05, DWFractalE.none, 5, 2, 1/2, 42⟩⟩ ∧
    noiseFromDict (NoiseGenState.toDict
      ⟨NoiseTypeE.cellular, 7, 0.05, 0, 0, FractalTypeE.fbm, 3, 2, 1/2, 0, 2,
       CellDistE.euclidean, CellRetE.distance2Div, 1,
       ⟨true, DWTypeE.basicGrid, 30, 0.05, DWFractalE.progressive, 5, 2, 1/2, 7⟩⟩)
      = Except.error "AttributeError: NoiseType has no attribute SIMPLEX" :=
  ⟨((C8_round_trip _ ⟨by norm_num, rfl⟩).1 rfl).1,
   (C8_round_trip _ ⟨by norm_num, rfl⟩).2 (by decide)⟩
end VgNoise
